import Mathlib

/-!
Verification development for the Aviator ingestion backend.

The definitions below are a shallow embedding of the JavaScript sources:
* `webSocketService.js` (`saveRoundData`, `safeDecimalValue`, round aggregate),
* `models/Aviator/gameRoundModel.js` (`findByRoundId`, `findSimilarRound`,
  `updateRoundId`, `addRound`),
* `services/Aviator/patternDetectionService.js` (`detectPattern`,
  `processNewResult`, `emitSignal`, `verifySignal`) together with
  `models/Aviator/signalModel.js`,
* `services/Aviator/decoder.js`, `decoder-msgpack.js`, `decoder-unified.js`.

JavaScript numbers are modelled by rationals extended with `NaN` and the two
infinities (`JNum`); machine-float rounding is below the granularity of every
property treated here, which only exercises exact comparisons, clamping and
rounding to two decimals — with one deliberate exception: the clamp literal
`999999999999999999.99` is itself not representable as a double and parses to
exactly `1e18`, which the model takes as its value.  Database tables are
lists of records with explicit `DECIMAL` column bounds: a write whose value
exceeds its column's bound models the PostgreSQL numeric-overflow error
`22003`.  NUMERIC columns read back through node-postgres arrive as strings
(no type parser is configured in this codebase), so a stored
`first_attempt_result` is truthy even when it records `0`.  `NOW()` is an
explicit millisecond timestamp argument, and thrown exceptions are `Except`
errors or `Option` failures.  Asynchronous code is sequentialised: within
one source the service awaits every persistence call before processing the
next message.
-/

namespace Aviator

/-- JavaScript number: a rational, `NaN`, `+Infinity` or `-Infinity`. -/
inductive JNum where
  | nan : JNum
  | inf : JNum
  | ninf : JNum
  | num : ℚ → JNum
deriving DecidableEq, Repr

namespace JNum

/-- JS truthiness of a number: `NaN` and `0` are falsy, everything else truthy. -/
def truthy : JNum → Bool
  | nan => false
  | num q => q != 0
  | _ => true

/-- JS `a || b` on numbers: `b` when `a` is falsy. -/
def jsOr (a b : JNum) : JNum := if a.truthy then a else b

/-- JS `v <= c` against a rational constant: false whenever `v` is `NaN`. -/
def jle (v : JNum) (c : ℚ) : Bool :=
  match v with
  | nan => false
  | inf => false
  | ninf => true
  | num q => decide (q ≤ c)

/-- JS `v > c` against a rational constant: false whenever `v` is `NaN`. -/
def jgt (v : JNum) (c : ℚ) : Bool :=
  match v with
  | nan => false
  | inf => true
  | ninf => false
  | num q => decide (c < q)

/-- The rational carried by a finite `JNum` (`0` for the non-finite values,
which every use below rules out beforehand). -/
def toQ : JNum → ℚ
  | num q => q
  | _ => 0

/-- JS `a > b` between two numbers: false whenever either side is `NaN`. -/
def jgtJ : JNum → JNum → Bool
  | nan, _ => false
  | _, nan => false
  | inf, inf => false
  | inf, _ => true
  | ninf, _ => false
  | num _, inf => false
  | num _, ninf => true
  | num a, num b => decide (b < a)

/-- `!isFinite(v) || isNaN(v)`. -/
def isNanOrInf : JNum → Bool
  | num _ => false
  | _ => true

/-- JS subtraction `a - b`. -/
def jsub : JNum → JNum → JNum
  | nan, _ => nan
  | _, nan => nan
  | inf, inf => nan
  | inf, _ => inf
  | ninf, ninf => nan
  | ninf, _ => ninf
  | num _, inf => ninf
  | num _, ninf => inf
  | num a, num b => num (a - b)

/-- JS multiplication `a * b`. -/
def jmul : JNum → JNum → JNum
  | nan, _ => nan
  | _, nan => nan
  | inf, inf => inf
  | inf, ninf => ninf
  | inf, num q => if q > 0 then inf else if q < 0 then ninf else nan
  | ninf, inf => ninf
  | ninf, ninf => inf
  | ninf, num q => if q > 0 then ninf else if q < 0 then inf else nan
  | num q, inf => if q > 0 then inf else if q < 0 then ninf else nan
  | num q, ninf => if q > 0 then ninf else if q < 0 then inf else nan
  | num a, num b => num (a * b)

/-- JS division `a / b`. -/
def jdiv : JNum → JNum → JNum
  | nan, _ => nan
  | _, nan => nan
  | inf, inf => nan
  | inf, ninf => nan
  | ninf, inf => nan
  | ninf, ninf => nan
  | inf, num q => if q < 0 then ninf else inf
  | ninf, num q => if q < 0 then inf else ninf
  | num _, inf => num 0
  | num _, ninf => num 0
  | num a, num b =>
      if b = 0 then (if a = 0 then nan else if a > 0 then inf else ninf)
      else num (a / b)

end JNum

/-- JS `Math.round` on a finite value: round half toward positive infinity. -/
def jround (q : ℚ) : ℤ := ⌊q + 1/2⌋

/-- `Math.round(v * 100) / 100` (two-decimal rounding) lifted to `JNum`;
`Math.round` maps `NaN` and the infinities to themselves. -/
def jroundTo2 : JNum → JNum
  | JNum.num q => JNum.num ((jround (q * 100) : ℚ) / 100)
  | v => v

/-- The clamp constant of `saveRoundData`: the source literal
`999999999999999999.99` is a JavaScript double, and the nearest double to
that decimal (doubles near `1e18` are spaced `128` apart) is exactly
`1e18` — so the program clamps to `10^18`, not to the decimal the literal
spells. -/
def MAX_MULTIPLIER_VALUE : ℚ := 10 ^ 18

/-- Largest value a `DECIMAL(20,2)` column stores: `999999999999999999.99`
(18 integer digits, 2 decimals).  Note `MAX_MULTIPLIER_VALUE` exceeds it. -/
def DEC20_MAX : ℚ := 10 ^ 18 - 1 / 100

/-- Largest value a `DECIMAL(15,2)` column stores (`total_bet_amount`,
`total_cashout`, `casino_profit`): `9999999999999.99`. -/
def DEC15_MAX : ℚ := 10 ^ 13 - 1 / 100

/-- Largest value a `DECIMAL(5,2)` column stores (`loss_percentage`):
`999.99`. -/
def DEC5_MAX : ℚ := 10 ^ 3 - 1 / 100

/-- `safeDecimalValue(value, decimals, maxValue)` from `webSocketService.js`:
non-finite and `NaN` inputs become `0`, finite values above `maxValue` are
clamped to it, and the result is rounded to `decimals` places. -/
def safeDecimalValue (value : JNum) (decimals : Nat := 2)
    (maxValue : ℚ := MAX_MULTIPLIER_VALUE) : ℚ :=
  match value with
  | JNum.num q =>
      let v := if q > maxValue then maxValue else q
      (jround (v * 10 ^ decimals) : ℚ) / 10 ^ decimals
  | _ => 0

/-- Per-source round aggregate (`this.roundData.get(bookmaker_id)`); the
cash-out dedup set is omitted because `saveRoundData` never consults it. -/
structure RoundAgg where
  betsCount : Int
  totalBetAmount : JNum
  onlinePlayers : Int
  roundId : Option String
  maxMultiplier : JNum
  currentMultiplier : JNum
  totalCashout : JNum
  gameState : String
deriving DecidableEq, Repr

/-- One persisted row of the `game_rounds` table; `timestamp` is the insert
time in milliseconds (the column's `NOW()` default). -/
structure Row where
  bookmaker_id : Nat
  round_id : String
  bets_count : Int
  total_bet_amount : ℚ
  online_players : Int
  max_multiplier : ℚ
  total_cashout : ℚ
  casino_profit : ℚ
  loss_percentage : ℚ
  timestamp : Nat
deriving DecidableEq, Repr

/-- Whether all numeric columns of a row fit their `DECIMAL` types in the
`game_rounds` schema; writing a row that does not raises the PostgreSQL
numeric-overflow error `22003`. -/
def rowFits (r : Row) : Bool :=
  decide (|r.total_bet_amount| ≤ DEC15_MAX ∧ |r.max_multiplier| ≤ DEC20_MAX ∧
    |r.total_cashout| ≤ DEC15_MAX ∧ |r.casino_profit| ≤ DEC15_MAX ∧
    |r.loss_percentage| ≤ DEC5_MAX)

/-- Whether a round id was locally synthesized (`temp_` from `saveRoundData`,
`round_` from the crash-message handler). -/
def isTempId (rid : String) : Bool :=
  "temp_".data.isPrefixOf rid.data || "round_".data.isPrefixOf rid.data

/-- `GameRound.findByRoundId(bookmaker_id, round_id)`:
`SELECT * ... WHERE bookmaker_id = $1 AND round_id = $2 LIMIT 1`. -/
def findByRoundId (db : List Row) (bid : Nat) (rid : String) : Option Row :=
  db.find? (fun r => r.bookmaker_id == bid && r.round_id == rid)

/-- Absolute difference of two millisecond timestamps. -/
def absDiff (a b : Nat) : Nat := max a b - min a b

/-- Pick the row with the largest `timestamp` (SQL `ORDER BY timestamp DESC
LIMIT 1`); on ties the earlier-listed row wins. -/
def latestRow (l : List Row) : Option Row :=
  l.foldl (fun acc r =>
    match acc with
    | none => some r
    | some b => if r.timestamp > b.timestamp then some r else some b) none

/-- `GameRound.findSimilarRound(bookmaker_id, max_multiplier)` (the
`timestamp = null` branch): most recent row of the same source whose stored
multiplier is within `0.01` and whose timestamp lies in the last 5 minutes. -/
def findSimilarRound (db : List Row) (bid : Nat) (m : ℚ) (now : Nat) :
    Option Row :=
  latestRow (db.filter (fun r =>
    r.bookmaker_id == bid && decide (|r.max_multiplier - m| < 1/100) &&
      decide (now < r.timestamp + 300000)))

/-- `GameRound.updateRoundId(oldRoundId, newRoundId, bookmaker_id)`: if the new
id already exists, delete the old row and return the existing one; otherwise
rewrite the old row's `round_id` in place. -/
def updateRoundId (db : List Row) (oldRoundId newRoundId : String) (bid : Nat) :
    List Row × Option Row :=
  match findByRoundId db bid newRoundId with
  | some existing =>
      (db.filter (fun r => !(r.bookmaker_id == bid && r.round_id == oldRoundId)),
        some existing)
  | none =>
      let db2 := db.map (fun r =>
        if r.bookmaker_id == bid && r.round_id == oldRoundId then
          { r with round_id := newRoundId }
        else r)
      (db2, (db.find? (fun r => r.bookmaker_id == bid && r.round_id == oldRoundId)).map
        (fun r => { r with round_id := newRoundId }))

/-- The `INSERT ... ON CONFLICT (bookmaker_id, round_id) DO UPDATE` statement of
`addRound`: update the conflicting row's data columns, else append a new row. -/
def upsertRow (db : List Row) (row : Row) : List Row × Row :=
  match findByRoundId db row.bookmaker_id row.round_id with
  | some ex =>
      let upd := { ex with
        bets_count := row.bets_count,
        total_bet_amount := row.total_bet_amount,
        online_players := row.online_players,
        max_multiplier := row.max_multiplier,
        total_cashout := row.total_cashout,
        casino_profit := row.casino_profit,
        loss_percentage := row.loss_percentage }
      (db.map (fun r =>
        if r.bookmaker_id == row.bookmaker_id && r.round_id == row.round_id
        then upd else r), upd)
  | none => (db ++ [row], row)

/-- Run the `INSERT ... ON CONFLICT` statement: the write succeeds only when
every numeric column fits its `DECIMAL` type, otherwise PostgreSQL raises
`22003` (`none`). -/
def tryUpsert (db : List Row) (row : Row) : Option (List Row × Row) :=
  if rowFits row then some (upsertRow db row) else none

/-- `GameRound.addRound`: skip when the natural key already exists; for
synthesized ids additionally skip when a similar synthesized row was written
in the last 30 seconds; otherwise upsert on the natural key.  `none` is the
thrown numeric-overflow error `22003`, which `addRound` does not catch (its
own `catch` handles only `23505`). -/
def addRound (db : List Row) (bid : Nat) (rid : String) (bets : Int)
    (amount : ℚ) (players : Int) (mult cash profit lossPct : ℚ) (now : Nat) :
    Option (List Row × Row) :=
  match findByRoundId db bid rid with
  | some existing => some (db, existing)
  | none =>
    let row : Row :=
      { bookmaker_id := bid, round_id := rid, bets_count := bets,
        total_bet_amount := amount, online_players := players,
        max_multiplier := mult, total_cashout := cash,
        casino_profit := profit, loss_percentage := lossPct,
        timestamp := now }
    if isTempId rid then
      match findSimilarRound db bid mult now with
      | some similar =>
          if isTempId similar.round_id then
            if absDiff now similar.timestamp < 30000 then some (db, similar)
            else tryUpsert db row
          else tryUpsert db row
      | none => tryUpsert db row
    else tryUpsert db row

/-- State touched by `saveRoundData`: the in-process `savedRounds` dedup set of
`(bookmaker_id, round_id)` keys, the `game_rounds` table, and the source's
mutable round aggregate. -/
structure SaveState where
  savedRounds : List (Nat × String)
  db : List Row
  roundData : Option RoundAgg
deriving DecidableEq, Repr

/-- `Set.add` on the `savedRounds` key set. -/
def addKey (k : Nat × String) (l : List (Nat × String)) : List (Nat × String) :=
  if k ∈ l then l else k :: l

/-- The four monetary values `saveRoundData` derives from an aggregate fit
their `DECIMAL` columns (the bet and cash-out totals, the profit, and the
loss percentage, each after `safeDecimalValue`).  The database enforces this
for every stored row; it is the precondition for an insert to succeed. -/
def amountsFit (rd : RoundAgg) : Prop :=
  let totalBetAmount := JNum.jsOr rd.totalBetAmount (JNum.num 0)
  let totalCashout := JNum.jsOr rd.totalCashout (JNum.num 0)
  let casinoProfit := JNum.jsub totalBetAmount totalCashout
  let lossPercentage :=
    if totalBetAmount.jgt 0 then
      JNum.jmul (JNum.jdiv casinoProfit totalBetAmount) (JNum.num 100)
    else JNum.num 0
  |safeDecimalValue totalBetAmount 2 MAX_MULTIPLIER_VALUE| ≤ DEC15_MAX ∧
  |safeDecimalValue totalCashout 2 MAX_MULTIPLIER_VALUE| ≤ DEC15_MAX ∧
  |safeDecimalValue casinoProfit 2 MAX_MULTIPLIER_VALUE| ≤ DEC15_MAX ∧
  |safeDecimalValue lossPercentage 2 MAX_MULTIPLIER_VALUE| ≤ DEC5_MAX

/-- The validation block of `saveRoundData` (resolve the crash multiplier
against the aggregate's `maxMultiplier` fallback, reject non-positive and
non-finite values, clamp to the storage bound, round to two decimals):
`none` means the early `return` without touching any state. -/
def validateCrashX (crashX fallback : JNum) : Option ℚ :=
  let v1 := JNum.jsOr crashX (JNum.jsOr fallback (JNum.num 0))
  if v1.jle 0 then none
  else
    let v2 :=
      if v1.jgt MAX_MULTIPLIER_VALUE then JNum.num MAX_MULTIPLIER_VALUE else v1
    if v2.isNanOrInf then none
    else some (jroundTo2 v2).toQ

/-- The tail of `saveRoundData` after a successful `addRound`: rewrite the
in-memory key when the store answered with a different round id
(lines 798-803), then mark the round key as saved (line 891). -/
def persistSuccess (st : SaveState) (bid : Nat) (rid : String)
    (roundKey : Nat × String) (rd2 : RoundAgg) (res : List Row × Row) :
    SaveState :=
  let (db2, savedRound) := res
  let (saved2, rd3) :=
    if savedRound.round_id ≠ rid then
      (addKey (bid, savedRound.round_id)
         (st.savedRounds.filter (fun k => k ≠ roundKey)),
       { rd2 with roundId := some savedRound.round_id })
    else (st.savedRounds, rd2)
  { savedRounds := addKey roundKey saved2, db := db2,
    roundData := some rd3 }

/-- The persistence block of `saveRoundData` after validation: synthesize a
`temp_` id when none is known, dedup against the in-process key set and the
store, merge similar synthesized-id rounds written in the last 30 seconds,
and otherwise insert-or-update through `addRound`.  A numeric-overflow error
(`addRound = none`) is retried once with `Math.min(validCrashX,
MAX_MULTIPLIER_VALUE)` (lines 826-839); if the retry also overflows, the
rethrown error reaches the outer catch, the round is diverted to the backup
log (an external file, outside this state), and neither the store nor the
dedup set changes.  The `23505` recovery branch cannot fire in this
sequential model (`ON CONFLICT` absorbs key conflicts). -/
def persistRound (st : SaveState) (bid : Nat) (rd0 : RoundAgg)
    (validCrashX : ℚ) (now : Nat) : SaveState :=
  let (rid, rd1) :=
    match rd0.roundId with
    | some r => (r, rd0)
    | none =>
        let r := "temp_" ++ toString bid ++ "_" ++ toString now
        (r, { rd0 with roundId := some r })
  let roundKey := (bid, rid)
  if roundKey ∈ st.savedRounds then { st with roundData := some rd1 }
  else
    match findByRoundId st.db bid rid with
    | some _ =>
        { st with
            roundData := some rd1
            savedRounds := addKey roundKey st.savedRounds }
    | none =>
      let merged : Option SaveState :=
        if isTempId rid then
          match findSimilarRound st.db bid validCrashX now with
          | some similar =>
              if isTempId similar.round_id then
                if absDiff now similar.timestamp < 30000 then
                  let (db2, _) := updateRoundId st.db similar.round_id rid bid
                  some { savedRounds := addKey roundKey st.savedRounds,
                         db := db2, roundData := some rd1 }
                else none
              else none
          | none => none
        else none
      match merged with
      | some st2 => st2
      | none =>
        let rd2 :=
          if JNum.jgtJ (JNum.num validCrashX) rd1.maxMultiplier then
            { rd1 with maxMultiplier := JNum.num validCrashX }
          else rd1
        let totalBetAmount := JNum.jsOr rd2.totalBetAmount (JNum.num 0)
        let totalCashout := JNum.jsOr rd2.totalCashout (JNum.num 0)
        let casinoProfit := JNum.jsub totalBetAmount totalCashout
        let lossPercentage :=
          if totalBetAmount.jgt 0 then
            JNum.jmul (JNum.jdiv casinoProfit totalBetAmount) (JNum.num 100)
          else JNum.num 0
        let safeMultiplier :=
          safeDecimalValue (JNum.num validCrashX) 2 MAX_MULTIPLIER_VALUE
        let safeBetAmount := safeDecimalValue totalBetAmount 2
        let safeCashout := safeDecimalValue totalCashout 2
        let safeProfit := safeDecimalValue casinoProfit 2
        let safeLossPercent := safeDecimalValue lossPercentage 2
        match addRound st.db bid rid rd2.betsCount safeBetAmount
            rd2.onlinePlayers safeMultiplier safeCashout safeProfit
            safeLossPercent now with
        | some res => persistSuccess st bid rid roundKey rd2 res
        | none =>
          let limitedMultiplier := min validCrashX MAX_MULTIPLIER_VALUE
          match addRound st.db bid rid rd2.betsCount safeBetAmount
              rd2.onlinePlayers
              (safeDecimalValue (JNum.num limitedMultiplier) 2
                MAX_MULTIPLIER_VALUE)
              safeCashout safeProfit safeLossPercent now with
          | some res => persistSuccess st bid rid roundKey rd2 res
          | none => { st with roundData := some rd2 }

/-- `WebSocketService.saveRoundData(bookmaker_id, _, crashX)` at time `now`:
validation block, then persistence block. -/
def saveRoundData (st : SaveState) (bid : Nat) (crashX : JNum) (now : Nat) :
    SaveState :=
  match st.roundData with
  | none => st
  | some rd0 =>
    match validateCrashX crashX rd0.maxMultiplier with
    | none => st
    | some validCrashX => persistRound st bid rd0 validCrashX now

/-- Number of persisted rows with the natural key `(bookmaker_id, round_id)`. -/
def rowCount (db : List Row) (bid : Nat) (rid : String) : Nat :=
  (db.filter (fun r => r.bookmaker_id == bid && r.round_id == rid)).length

/-- A sequence of finalize calls for one source: each entry is the raw
`crashX` and the wall-clock time of the call. -/
def runSaves (st : SaveState) (bid : Nat) (calls : List (JNum × Nat)) :
    SaveState :=
  calls.foldl (fun s c => saveRoundData s bid c.1 c.2) st

/-! ## Signal engine (`patternDetectionService.js` + `signalModel.js`)

The engine is modelled per source: `pendingSignals` becomes the single slot of
the modelled source, signals carry their `signal_results` rows inline, and the
`GameRound.getLastResults` database read is an explicit argument of each
`processNewResult` call. -/

/-- One element of `getLastResults`: `(max_multiplier, round_id)` of a
persisted round, newest first. -/
structure RecRow where
  max_multiplier : ℚ
  round_id : String
deriving DecidableEq, Repr, Inhabited

/-- Signal status column (`signals.status`). -/
inductive SigStatus where
  | pending | won | lost
deriving DecidableEq, Repr

/-- One `signal_results` row. -/
structure Attempt where
  attempt_number : Nat
  result_multiplier : ℚ
  is_win : Bool
  round_id : String
deriving DecidableEq, Repr

/-- One `signals` row together with its `signal_results` rows. -/
structure Signal where
  id : Nat
  bookmakerId : Nat
  pattern : List ℚ
  status : SigStatus
  firstAttempt : Option ℚ
  secondAttempt : Option ℚ
  galeUsed : Bool
  attempts : List Attempt
deriving DecidableEq, Repr

/-- Engine state for one source: the pending slot
(`this.pendingSignals.get(bookmakerId)`), the `processedResults` idempotency
keys in insertion order, the signal store, and the next database id. -/
structure EngineState where
  pending : Option Nat
  processed : List (Nat × String × ℚ)
  dbSignals : List Signal
  nextId : Nat
deriving DecidableEq, Repr

/-- Initial engine state: no slot, no keys, empty signal store. -/
def initEngine : EngineState :=
  { pending := none, processed := [], dbSignals := [], nextId := 0 }

/-- `detectPattern(results)`: with at least three newest-first results, match
`result1 > 1.50 && result2 > 1.50 && result3 < 2.00`. -/
def detectPattern (results : List RecRow) : Option (ℚ × ℚ × ℚ) :=
  if results.length < 3 then none
  else
    let result1 := (results.getD 0 default).max_multiplier
    let result2 := (results.getD 1 default).max_multiplier
    let result3 := (results.getD 2 default).max_multiplier
    if result1 > 3/2 ∧ result2 > 3/2 ∧ result3 < 2 then
      some (result1, result2, result3)
    else none

/-- The duplicate filtering loop of `processNewResult`: keep the first
occurrence of every `round_id`. -/
def dedupeByRoundId (results : List RecRow) : List RecRow :=
  (results.foldl (fun acc r =>
    if acc.any (fun s => s.round_id == r.round_id) then acc else acc ++ [r]) [])

/-- `SignalModel.createSignal` inside `emitSignal`: refuse while the source's
slot is occupied, otherwise insert a pending signal and occupy the slot. -/
def emitSignal (st : EngineState) (bid : Nat) (pat : ℚ × ℚ × ℚ) : EngineState :=
  if st.pending.isSome then st
  else
    let sig : Signal :=
      { id := st.nextId, bookmakerId := bid,
        pattern := [pat.1, pat.2.1, pat.2.2], status := SigStatus.pending,
        firstAttempt := none, secondAttempt := none, galeUsed := false,
        attempts := [] }
    { st with dbSignals := st.dbSignals ++ [sig],
              pending := some st.nextId, nextId := st.nextId + 1 }

/-- Replace the signals with the given id (the SQL `UPDATE ... WHERE id`). -/
def replaceSignal (l : List Signal) (sid : Nat) (s2 : Signal) : List Signal :=
  l.map (fun s => if s.id == sid then s2 else s)

/-- `verifySignal(signalId, bookmakerId, roundId, multiplier)`: resolve the
pending signal with the round's multiplier.  The signal is re-read from the
store (`getPendingSignals`), where node-postgres returns the
`DECIMAL(10,2)` column `first_attempt_result` as a string (no type parser is
configured anywhere in this codebase), so `!signal.first_attempt_result` is
true exactly when the column is SQL `NULL` — a recorded `0` comes back as
the truthy string `"0.00"`.  A first-attempt win closes the signal, a loss
keeps it pending for the gale; the second attempt closes it either way. -/
def verifySignal (st : EngineState) (sid : Nat) (bid : Nat) (rid : String)
    (mult : ℚ) : EngineState :=
  let isWin := decide (mult > 3/2)
  let pendings := st.dbSignals.filter
    (fun s => s.bookmakerId == bid && s.status == SigStatus.pending)
  match pendings.find? (fun s => s.id == sid) with
  | none => { st with pending := none }
  | some s =>
    let isFirstAttempt :=
      match s.firstAttempt with
      | none => true
      | some _ => false
    if isFirstAttempt then
      let s2 := { s with
        firstAttempt := some mult,
        status := if isWin then SigStatus.won else SigStatus.pending,
        attempts := s.attempts ++
          [{ attempt_number := 1, result_multiplier := mult, is_win := isWin,
             round_id := rid }] }
      let db2 := replaceSignal st.dbSignals sid s2
      if isWin then { st with dbSignals := db2, pending := none }
      else { st with dbSignals := db2 }
    else
      let s2 := { s with
        secondAttempt := some mult,
        galeUsed := true,
        status := if isWin then SigStatus.won else SigStatus.lost,
        attempts := s.attempts ++
          [{ attempt_number := 2, result_multiplier := mult, is_win := isWin,
             round_id := rid }] }
      { st with dbSignals := replaceSignal st.dbSignals sid s2, pending := none }

/-- `processNewResult(bookmakerId, roundId, multiplier)` with the
`getLastResults` reply passed in as `recents`. -/
def processNewResult (st : EngineState) (bid : Nat) (rid : String) (mult : ℚ)
    (recents : List RecRow) : EngineState :=
  let key : Nat × String × ℚ := (bid, rid, mult)
  if key ∈ st.processed then st
  else
    let st1 := { st with processed := st.processed ++ [key] }
    let st2 :=
      if st1.processed.length > 1000 then
        { st1 with processed := st1.processed.drop (st1.processed.length - 500) }
      else st1
    let st3 :=
      match st2.pending with
      | some sid => verifySignal st2 sid bid rid mult
      | none => st2
    let uniqueResults := dedupeByRoundId recents
    if uniqueResults.length ≥ 3 then
      match detectPattern uniqueResults with
      | some pat => emitSignal st3 bid pat
      | none => st3
    else st3

/-- One observed persisted round fed to the engine: round id, multiplier, and
the `getLastResults` reply at that moment. -/
structure EngineCall where
  rid : String
  mult : ℚ
  recents : List RecRow
deriving DecidableEq, Repr

/-- Feed a sequence of persisted rounds of one source to the engine. -/
def runEngine (st : EngineState) (bid : Nat) (calls : List EngineCall) :
    EngineState :=
  calls.foldl (fun s c => processNewResult s bid c.rid c.mult c.recents) st

/-! ## Decoder layer (`decoder.js`, `decoder-msgpack.js`, `decoder-unified.js`)

Buffers are lists of bytes (naturals below 256 in practice).  A thrown
JavaScript exception is `Except.error`; reads beyond the buffer fail exactly
where Node's checked `Buffer` reads throw, while `slice`-based reads clamp.
The external `zlib.inflateSync` and `msgpack.decode` library calls are
parameters of the decoding functions.  Recursive Format-A decoding carries a
fuel argument standing for the finite JavaScript call stack: running out of
fuel raises an error just as deep nesting raises a `RangeError`, and both are
caught at the same places. -/

/-- Cursor over a byte buffer (`DataStream` of `decoder.js`). -/
structure DataStream where
  data : List Nat
  pos : Nat
deriving Repr

/-- Checked read of `n` bytes (Node throws outside the buffer bounds). -/
def readBytesChecked (n : Nat) (ds : DataStream) :
    Except String (List Nat × DataStream) :=
  if ds.pos + n ≤ ds.data.length then
    Except.ok ((ds.data.drop ds.pos).take n, { ds with pos := ds.pos + n })
  else Except.error "Attempt to access memory outside buffer bounds"

/-- `slice`-based read: clamps to the buffer but still advances the cursor. -/
def sliceBytes (n : Nat) (ds : DataStream) : List Nat × DataStream :=
  ((ds.data.drop ds.pos).take n, { ds with pos := ds.pos + n })

/-- Big-endian byte-list value. -/
def beNat (bytes : List Nat) : Nat := bytes.foldl (fun a b => a * 256 + b) 0

/-- Reinterpret a `w`-bit unsigned value as signed (two's complement). -/
def toSigned (w : Nat) (v : Nat) : Int :=
  if v < 2 ^ (w - 1) then (v : Int) else (v : Int) - (2 ^ w : Nat)

/-- `DataStream.readUInt8`. -/
def readUInt8 (ds : DataStream) : Except String (Nat × DataStream) := do
  let (b, ds1) ← readBytesChecked 1 ds
  Except.ok (beNat b, ds1)

/-- `DataStream.readUInt16` (big-endian). -/
def readUInt16 (ds : DataStream) : Except String (Nat × DataStream) := do
  let (b, ds1) ← readBytesChecked 2 ds
  Except.ok (beNat b, ds1)

/-- `DataStream.readInt8`. -/
def readInt8 (ds : DataStream) : Except String (Int × DataStream) := do
  let (b, ds1) ← readBytesChecked 1 ds
  Except.ok (toSigned 8 (beNat b), ds1)

/-- `DataStream.readInt16` (big-endian signed). -/
def readInt16 (ds : DataStream) : Except String (Int × DataStream) := do
  let (b, ds1) ← readBytesChecked 2 ds
  Except.ok (toSigned 16 (beNat b), ds1)

/-- `DataStream.readInt32` (big-endian signed). -/
def readInt32 (ds : DataStream) : Except String (Int × DataStream) := do
  let (b, ds1) ← readBytesChecked 4 ds
  Except.ok (toSigned 32 (beNat b), ds1)

/-- `DataStream.readInt64` (big-endian signed). -/
def readInt64 (ds : DataStream) : Except String (Int × DataStream) := do
  let (b, ds1) ← readBytesChecked 8 ds
  Except.ok (toSigned 64 (beNat b), ds1)

/-- `DataStream.readFloat32`; the IEEE bit pattern is kept as the value. -/
def readFloat32 (ds : DataStream) : Except String (Nat × DataStream) :=
  readBytesChecked 4 ds |>.map (fun p => (beNat p.1, p.2))

/-- `DataStream.readFloat64`; the IEEE bit pattern is kept as the value. -/
def readFloat64 (ds : DataStream) : Except String (Nat × DataStream) :=
  readBytesChecked 8 ds |>.map (fun p => (beNat p.1, p.2))

/-- Run a fixed-width reader `n` times (`Array.from({length: n}, ...)`). -/
def readRepeat {α : Type} (reader : DataStream → Except String (α × DataStream)) :
    Nat → DataStream → Except String (List α × DataStream)
  | 0, ds => Except.ok ([], ds)
  | n + 1, ds => do
    let (x, ds1) ← reader ds
    let (xs, ds2) ← readRepeat reader n ds1
    Except.ok (x :: xs, ds2)

/-- A decoded Format-A (SFS) value.  Strings are kept as their raw UTF-8
bytes and floats as their IEEE bit patterns: no property below inspects
them, only the shape and the consumed bytes matter. -/
inductive SfsVal where
  | null
  | boolV (b : Bool)
  | byteV (i : Int)
  | shortV (i : Int)
  | intV (i : Int)
  | longV (i : Int)
  | floatV (bits : Nat)
  | doubleV (bits : Nat)
  | utfString (bytes : List Nat)
  | boolArray (l : List Bool)
  | byteArray (l : List Nat)
  | shortArray (l : List Int)
  | intArray (l : List Int)
  | longArray (l : List Int)
  | floatArray (l : List Nat)
  | doubleArray (l : List Nat)
  | utfStringArray (l : List (List Nat))
  | sfsArray (l : List SfsVal)
  | sfsObject (l : List (List Nat × SfsVal))
deriving Repr

/-- Length-prefixed UTF-8 string read (tag `0x08` and object keys). -/
def readLenString (ds : DataStream) : Except String (List Nat × DataStream) := do
  let (len, ds1) ← readUInt16 ds
  Except.ok (sliceBytes len ds1)

mutual

/-- `decodeValue(ds, valueType)` of `decoder.js`; `fuel` bounds the recursion
depth like the JavaScript call stack does. -/
def decodeValue : Nat → Nat → DataStream → Except String (SfsVal × DataStream)
  | 0, _, _ => Except.error "Maximum call stack size exceeded"
  | fuel + 1, valueType, ds =>
    match valueType with
    | 0x00 => Except.ok (SfsVal.null, ds)
    | 0x01 => do
        let (b, ds1) ← readUInt8 ds
        Except.ok (SfsVal.boolV (b != 0), ds1)
    | 0x02 => do
        let (i, ds1) ← readInt8 ds
        Except.ok (SfsVal.byteV i, ds1)
    | 0x03 => do
        let (i, ds1) ← readInt16 ds
        Except.ok (SfsVal.shortV i, ds1)
    | 0x04 => do
        let (i, ds1) ← readInt32 ds
        Except.ok (SfsVal.intV i, ds1)
    | 0x05 => do
        let (i, ds1) ← readInt64 ds
        Except.ok (SfsVal.longV i, ds1)
    | 0x06 => do
        let (b, ds1) ← readFloat32 ds
        Except.ok (SfsVal.floatV b, ds1)
    | 0x07 => do
        let (b, ds1) ← readFloat64 ds
        Except.ok (SfsVal.doubleV b, ds1)
    | 0x08 => do
        let (s, ds1) ← readLenString ds
        Except.ok (SfsVal.utfString s, ds1)
    | 0x09 => do
        let (n, ds1) ← readUInt16 ds
        let (l, ds2) ← readRepeat
          (fun d => (readUInt8 d).map (fun p => (p.1 != 0, p.2))) n ds1
        Except.ok (SfsVal.boolArray l, ds2)
    | 0x0A => do
        let (n, ds1) ← readUInt16 ds
        let (l, ds2) := sliceBytes n ds1
        Except.ok (SfsVal.byteArray l, ds2)
    | 0x0B => do
        let (n, ds1) ← readUInt16 ds
        let (l, ds2) ← readRepeat readInt16 n ds1
        Except.ok (SfsVal.shortArray l, ds2)
    | 0x0C => do
        let (n, ds1) ← readUInt16 ds
        let (l, ds2) ← readRepeat readInt32 n ds1
        Except.ok (SfsVal.intArray l, ds2)
    | 0x0D => do
        let (n, ds1) ← readUInt16 ds
        let (l, ds2) ← readRepeat readInt64 n ds1
        Except.ok (SfsVal.longArray l, ds2)
    | 0x0E => do
        let (n, ds1) ← readUInt16 ds
        let (l, ds2) ← readRepeat readFloat32 n ds1
        Except.ok (SfsVal.floatArray l, ds2)
    | 0x0F => do
        let (n, ds1) ← readUInt16 ds
        let (l, ds2) ← readRepeat readFloat64 n ds1
        Except.ok (SfsVal.doubleArray l, ds2)
    | 0x10 => do
        let (n, ds1) ← readUInt16 ds
        let (l, ds2) ← readRepeat readLenString n ds1
        Except.ok (SfsVal.utfStringArray l, ds2)
    | 0x11 => decodeSfsArray fuel ds
    | 0x12 => decodeSfsObject fuel ds
    | _ => Except.error "Unsupported data type"

/-- `decodeSfsObject(ds)` of `decoder.js`. -/
def decodeSfsObject : Nat → DataStream → Except String (SfsVal × DataStream)
  | 0, _ => Except.error "Maximum call stack size exceeded"
  | fuel + 1, ds => do
    let (n, ds1) ← readUInt16 ds
    let (elems, ds2) ← decodeObjElems fuel n ds1
    Except.ok (SfsVal.sfsObject elems, ds2)

/-- The element loop of `decodeSfsObject`. -/
def decodeObjElems : Nat → Nat → DataStream →
    Except String (List (List Nat × SfsVal) × DataStream)
  | 0, _, _ => Except.error "Maximum call stack size exceeded"
  | _ + 1, 0, ds => Except.ok ([], ds)
  | fuel + 1, n + 1, ds => do
    let (key, ds1) ← readLenString ds
    let (tag, ds2) ← readUInt8 ds1
    let (v, ds3) ← decodeValue fuel tag ds2
    let (rest, ds4) ← decodeObjElems fuel n ds3
    Except.ok ((key, v) :: rest, ds4)

/-- `decodeSfsArray(ds)` of `decoder.js`. -/
def decodeSfsArray : Nat → DataStream → Except String (SfsVal × DataStream)
  | 0, _ => Except.error "Maximum call stack size exceeded"
  | fuel + 1, ds => do
    let (n, ds1) ← readUInt16 ds
    let (elems, ds2) ← decodeArrElems fuel n ds1
    Except.ok (SfsVal.sfsArray elems, ds2)

/-- The element loop of `decodeSfsArray`. -/
def decodeArrElems : Nat → Nat → DataStream →
    Except String (List SfsVal × DataStream)
  | 0, _, _ => Except.error "Maximum call stack size exceeded"
  | _ + 1, 0, ds => Except.ok ([], ds)
  | fuel + 1, n + 1, ds => do
    let (tag, ds1) ← readUInt8 ds
    let (v, ds2) ← decodeValue fuel tag ds1
    let (rest, ds3) ← decodeArrElems fuel n ds2
    Except.ok (v :: rest, ds3)

end

/-- `decodeMessage(binaryData)` of `decoder.js` (Format A).  `inflate` is the
external `zlib.inflateSync`; its failure is caught and becomes `null`, but the
header reads and the root-tag read sit outside every `try` block, so their
exceptions propagate to the caller. -/
def sfsDecodeMessage (inflate : List Nat → Except String (List Nat))
    (bs : List Nat) : Except String (Option SfsVal) :=
  let ds : DataStream := { data := bs, pos := 0 }
  match readUInt8 ds with
  | Except.error e => Except.error e
  | Except.ok (header, ds1) =>
    if (header &&& 0x80) != 0x80 then Except.ok none
    else
      match readUInt16 ds1 with
      | Except.error e => Except.error e
      | Except.ok (_messageLength, ds2) =>
        let bodyData := bs.drop ds2.pos
        let decompressed : Option (List Nat) :=
          if bodyData.length > 1 && bodyData.getD 0 0 == 0x78 &&
              bodyData.getD 1 0 == 0x9c then
            match inflate bodyData with
            | Except.ok d => some d
            | Except.error _ => none
          else some bodyData
        match decompressed with
        | none => Except.ok none
        | some body =>
          match readUInt8 { data := body, pos := 0 } with
          | Except.error e => Except.error e
          | Except.ok (dataType, bodyDs) =>
            if dataType == 0x12 then
              match decodeSfsObject (body.length * 2 + 16) bodyDs with
              | Except.ok (v, _) => Except.ok (some v)
              | Except.error _ => Except.ok none
            else if dataType == 0x11 then
              match decodeSfsArray (body.length * 2 + 16) bodyDs with
              | Except.ok (v, _) => Except.ok (some v)
              | Except.error _ => Except.ok none
            else Except.ok none

/-- A JavaScript value produced by `msgpack.decode`. -/
inductive JVal where
  | null
  | boolV (b : Bool)
  | numV (q : ℚ)
  | strV (s : String)
  | arr (l : List JVal)
  | obj (l : List (String × JVal))
deriving Repr

/-- JS truthiness of a decoded value. -/
def truthyJ : JVal → Bool
  | JVal.null => false
  | JVal.boolV b => b
  | JVal.numV q => q != 0
  | JVal.strV s => s != ""
  | JVal.arr _ => true
  | JVal.obj _ => true

/-- `typeof v === 'object'` (true for objects, arrays and `null`). -/
def jsTypeofObject : JVal → Bool
  | JVal.null => true
  | JVal.arr _ => true
  | JVal.obj _ => true
  | _ => false

/-- Property access `v[k]`: `none` models `undefined`. -/
def getField (v : JVal) (k : String) : Option JVal :=
  match v with
  | JVal.obj fs => (fs.find? (fun p => p.1 == k)).map (fun p => p.2)
  | _ => none

/-- Whether `v[k] !== undefined`. -/
def hasField (v : JVal) (k : String) : Bool := (getField v k).isSome

/-- Truthiness of an optional property (`undefined` is falsy). -/
def optTruthy (o : Option JVal) : Bool :=
  match o with
  | some x => truthyJ x
  | none => false

/-- Object spread `{ ...obj, k: x }`. -/
def setField (v : JVal) (k : String) (x : JVal) : JVal :=
  match v with
  | JVal.obj fs =>
      if fs.any (fun p => p.1 == k) then
        JVal.obj (fs.map (fun p => if p.1 == k then (k, x) else p))
      else JVal.obj (fs ++ [(k, x)])
  | w => w

/-- `v || {}`. -/
def jsValOrEmpty (v : JVal) : JVal := if truthyJ v then v else JVal.obj []

/-- `{ p: { c: cmd, p: params } }`. -/
def wrapCommand (cmd : String) (params : JVal) : JVal :=
  JVal.obj [("p", JVal.obj [("c", JVal.strV cmd), ("p", params)])]

/-- `normalizeDirectMessage(obj)` of `decoder-msgpack.js`: infer the command
from the fields present.  Property access on `null` throws a `TypeError`,
which the function's own `catch` converts to `null`. -/
def normalizeDirectMessage (o : JVal) : Option JVal :=
  match o with
  | JVal.null => none
  | _ =>
    if hasField o "betsCount" || hasField o "bets" then
      some (wrapCommand "updateCurrentBets" o)
    else if hasField o "onlinePlayers" then
      some (wrapCommand "onlinePlayers" o)
    else if hasField o "newStateId" || hasField o "stateId" then
      let params :=
        if hasField o "stateId" && !(hasField o "newStateId") then
          setField o "newStateId" ((getField o "stateId").getD JVal.null)
        else o
      some (wrapCommand "changeState" params)
    else if hasField o "cashouts" || hasField o "cashOuts" then
      let params :=
        if hasField o "cashOuts" && !(hasField o "cashouts") then
          setField o "cashouts" ((getField o "cashOuts").getD JVal.null)
        else o
      some (wrapCommand "updateCurrentCashOuts" params)
    else if hasField o "crashX" || hasField o "x" then
      some (wrapCommand "x" o)
    else if hasField o "roundId" && hasField o "maxMultiplier" then
      some (wrapCommand "roundChartInfo" o)
    else
      some (wrapCommand "unknown" o)

/-- `normalizeArrayMessage(arr)` of `decoder-msgpack.js`. -/
def normalizeArrayMessage (l : List JVal) : Option JVal :=
  let isStr : JVal → Bool := fun v =>
    match v with
    | JVal.strV _ => true
    | _ => false
  if l.length ≥ 3 && isStr (l.getD 1 JVal.null) then
    match l.getD 1 JVal.null with
    | JVal.strV c => some (wrapCommand c (jsValOrEmpty (l.getD 2 JVal.null)))
    | _ => none
  else if l.length ≥ 2 && isStr (l.getD 0 JVal.null) then
    match l.getD 0 JVal.null with
    | JVal.strV c => some (wrapCommand c (jsValOrEmpty (l.getD 1 JVal.null)))
    | _ => none
  else if l.length == 1 && jsTypeofObject (l.getD 0 JVal.null) then
    normalizeDirectMessage (l.getD 0 JVal.null)
  else none

/-- `normalizeMessagePackStructure(decoded)` of `decoder-msgpack.js`. -/
def normalizeMessagePackStructure (decoded : JVal) : Option JVal :=
  if !(truthyJ decoded) then none
  else if optTruthy (getField decoded "p") &&
      (match getField decoded "p" with
       | some pv => jsTypeofObject pv
       | none => false) then
    some decoded
  else
    match decoded with
    | JVal.arr l =>
        if l.length ≥ 2 then normalizeArrayMessage l
        else if jsTypeofObject decoded then normalizeDirectMessage decoded
        else some (wrapCommand "unknown" decoded)
    | _ =>
        if jsTypeofObject decoded && optTruthy (getField decoded "c") &&
            optTruthy (getField decoded "p") then
          some (JVal.obj [("p", decoded)])
        else if jsTypeofObject decoded then normalizeDirectMessage decoded
        else
          match decoded with
          | JVal.strV _ => none
          | JVal.numV _ => none
          | _ => some (wrapCommand "unknown" decoded)

/-- `isMessagePackMessage(binaryData)` of `decoder-msgpack.js`. -/
def isMessagePackMessage (bs : List Nat) : Bool :=
  if bs.length < 1 then false
  else
    let firstByte := bs.getD 0 0
    (decide (0x80 ≤ firstByte) && decide (firstByte ≤ 0x8f)) ||
    (decide (0x90 ≤ firstByte) && decide (firstByte ≤ 0x9f)) ||
    (decide (0xa0 ≤ firstByte) && decide (firstByte ≤ 0xbf)) ||
    (decide (0xc0 ≤ firstByte) && decide (firstByte ≤ 0xdf)) ||
    (decide (0xd9 ≤ firstByte) && decide (firstByte ≤ 0xdb)) ||
    (decide (0xdc ≤ firstByte) && decide (firstByte ≤ 0xdf))

/-- `decodeMessagePackMessage(binaryData)` of `decoder-msgpack.js`; `mpRaw` is
the external `msgpack.decode`, whose exception the surrounding `try` turns
into `null`. -/
def decodeMessagePackMessage (mpRaw : List Nat → Except String JVal)
    (bs : List Nat) : Option JVal :=
  if bs.length == 0 then none
  else if !(isMessagePackMessage bs) then none
  else
    match mpRaw bs with
    | Except.error _ => none
    | Except.ok decoded =>
        if truthyJ decoded then normalizeMessagePackStructure decoded
        else none

/-- `detectDecoderType(binaryData)` of `decoder-unified.js`, returning the
decoder name string. -/
def detectDecoderType (bs : List Nat) : String :=
  if bs.length < 1 then "sfs"
  else
    let firstByte := bs.getD 0 0
    if isMessagePackMessage bs then
      if bs.length ≥ 2 then
        let secondByte := bs.getD 1 0
        if firstByte == 0x80 && (secondByte == 0x00 || secondByte == 0x01) then
          "sfs"
        else "msgpack"
      else "msgpack"
    else if (firstByte &&& 0x80) == 0x80 then
      if bs.length ≥ 3 then
        if bs.length ≥ 5 && bs.getD 3 0 == 0x78 && bs.getD 4 0 == 0x9c then
          "sfs"
        else if bs.length ≥ 4 && (bs.getD 3 0 == 0x12 || bs.getD 3 0 == 0x11)
          then "sfs"
        else "sfs"
      else "sfs"
    else "msgpack"

/-- Result of the unified decoder: a Format-A value or a normalized Format-B
envelope. -/
inductive Decoded where
  | sfs (v : SfsVal)
  | mp (v : JVal)
deriving Repr

/-- The body of the unified `decodeMessage` (everything inside its `try`):
pick a decoder, fall back to the other silently; exceptions escape to the
outer handler. -/
def unifiedDecodeBody (inflate : List Nat → Except String (List Nat))
    (mpRaw : List Nat → Except String JVal) (bs : List Nat)
    (decoderType : String) : Except String (Option Decoded) :=
  if bs.length == 0 then Except.ok none
  else
    let actualDecoderType :=
      if decoderType == "auto" then detectDecoderType bs else decoderType
    if actualDecoderType == "msgpack" then
      match decodeMessagePackMessage mpRaw bs with
      | some v => Except.ok (some (Decoded.mp v))
      | none =>
        match sfsDecodeMessage inflate bs with
        | Except.error e => Except.error e
        | Except.ok (some v) => Except.ok (some (Decoded.sfs v))
        | Except.ok none => Except.ok none
    else
      match sfsDecodeMessage inflate bs with
      | Except.error e => Except.error e
      | Except.ok (some v) => Except.ok (some (Decoded.sfs v))
      | Except.ok none =>
        match decodeMessagePackMessage mpRaw bs with
        | some v => Except.ok (some (Decoded.mp v))
        | none => Except.ok none

/-- `decodeMessage(binaryData, decoderType)` of `decoder-unified.js`: the
whole body runs inside `try { ... } catch { return null }`, so every thrown
error is converted into `null`. -/
def unifiedDecodeMessage (inflate : List Nat → Except String (List Nat))
    (mpRaw : List Nat → Except String JVal) (bs : List Nat)
    (decoderType : String) : Except String (Option Decoded) :=
  match unifiedDecodeBody inflate mpRaw bs decoderType with
  | Except.error _ => Except.ok none
  | Except.ok r => Except.ok r

/-! ## Concrete fixtures for the scenario theorems -/

/-- A quiescent end-of-round aggregate holding a server-issued round id. -/
def testAgg : RoundAgg :=
  { betsCount := 0, totalBetAmount := JNum.num 0, onlinePlayers := 0,
    roundId := some "srv1001", maxMultiplier := JNum.num 0,
    currentMultiplier := JNum.num 0, totalCashout := JNum.num 0,
    gameState := "End" }

/-- A fresh service state (empty store, empty dedup set) around `testAgg`. -/
def testState : SaveState :=
  { savedRounds := [], db := [], roundData := some testAgg }

/-- `testAgg` with an infinite accumulated `totalBetAmount`. -/
def infBetState : SaveState :=
  { savedRounds := [], db := [],
    roundData := some { testAgg with totalBetAmount := JNum.inf } }

/-- `testAgg` with a `NaN` accumulated `totalBetAmount`. -/
def nanBetState : SaveState :=
  { savedRounds := [], db := [],
    roundData := some { testAgg with totalBetAmount := JNum.nan } }

/-- Number of `pending` signals in the store slice of one source. -/
def pendingCount (l : List Signal) : Nat :=
  (l.filter (fun s => s.status == SigStatus.pending)).length

/-- Inductive invariant of the single-source engine: every stored signal
belongs to the source and has a store id below `nextId`, ids are unique, and
the pending slot points at the unique pending signal (no slot, no pending
signal). -/
def EngineInv (bid : Nat) (st : EngineState) : Prop :=
  (∀ s ∈ st.dbSignals, s.bookmakerId = bid ∧ s.id < st.nextId) ∧
  (st.dbSignals.map (fun s => s.id)).Nodup ∧
  (match st.pending with
   | none => ∀ s ∈ st.dbSignals, s.status ≠ SigStatus.pending
   | some sid => ∃ s ∈ st.dbSignals, s.id = sid ∧ s.status = SigStatus.pending ∧
       ∀ t ∈ st.dbSignals, t.status = SigStatus.pending → t = s)

/-- Per-signal attempt bookkeeping invariant: at most two attempt rows, none
before the first attempt is recorded, at most one before the second, and a
pending signal has no second attempt yet. -/
def WFSig (s : Signal) : Prop :=
  s.attempts.length ≤ 2 ∧
  (s.firstAttempt = none → s.attempts = []) ∧
  (s.secondAttempt = none → s.attempts.length ≤ 1) ∧
  (s.status = SigStatus.pending → s.secondAttempt = none)

/-- A freshly created pending signal (as `emitSignal` stores it). -/
def freshSig : Signal :=
  { id := 0, bookmakerId := 1, pattern := [9/5, 8/5, 19/10],
    status := SigStatus.pending, firstAttempt := none, secondAttempt := none,
    galeUsed := false, attempts := [] }

/-- Engine state holding exactly `freshSig` as the pending signal. -/
def freshSigState : EngineState :=
  { pending := some 0, processed := [], dbSignals := [freshSig], nextId := 1 }

/-- Two consecutive finalize calls with an aggregate reset in between (a new
round starting between the two persists). -/
def run2 (st : SaveState) (bid : Nat) (c1 : JNum) (t1 : Nat)
    (rd2 : RoundAgg) (c2 : JNum) (t2 : Nat) : SaveState :=
  let st1 := saveRoundData st bid c1 t1
  saveRoundData { st1 with roundData := some rd2 } bid c2 t2

/-- `testAgg` with a synthesized round id, for the merge scenarios. -/
def wAgg1 : RoundAgg := { testAgg with roundId := some "temp_1_1000" }

/-- A second synthesized-id aggregate. -/
def wAgg2 : RoundAgg := { testAgg with roundId := some "temp_1_2000" }

/-! ## Helper lemmas -/

theorem jround_intCast (n : ℤ) : jround ((n : ℚ)) = n := by
  have h : ((n : ℚ) + 1/2) = 1/2 + (n : ℚ) := by ring
  rw [jround, h, Int.floor_add_int]
  norm_num

theorem jround_mono {a b : ℚ} (h : a ≤ b) : jround a ≤ jround b :=
  Int.floor_le_floor (by linarith)

/-- The clamp bound times `100` is an integer. -/
theorem max_mult_eq : MAX_MULTIPLIER_VALUE * 10 ^ 2
    = ((100000000000000000000 : ℤ) : ℚ) := by
  norm_num [MAX_MULTIPLIER_VALUE]

/-- Rounding the clamp bound to two decimals returns it unchanged. -/
theorem jround_max : (jround (MAX_MULTIPLIER_VALUE * 100) : ℚ) / 100
    = MAX_MULTIPLIER_VALUE := by
  rw [show MAX_MULTIPLIER_VALUE * 100 = ((100000000000000000000 : ℤ) : ℚ)
    from by norm_num [MAX_MULTIPLIER_VALUE], jround_intCast]
  norm_num [MAX_MULTIPLIER_VALUE]

/-- Two-decimal rounding is idempotent. -/
theorem round2_round2 (m : ℚ) :
    (jround (((jround (m * 100) : ℚ) / 100) * 100) : ℚ) / 100
      = (jround (m * 100) : ℚ) / 100 := by
  rw [div_mul_cancel₀ _ (by norm_num : (100 : ℚ) ≠ 0), jround_intCast]

/-- The clamp constant survives `safeDecimalValue` unchanged: `1e18` is an
integer, so two-decimal rounding fixes it. -/
theorem safeDecimalValue_max :
    safeDecimalValue (JNum.num MAX_MULTIPLIER_VALUE) 2 MAX_MULTIPLIER_VALUE
      = MAX_MULTIPLIER_VALUE := by
  simp only [safeDecimalValue]
  rw [if_neg (lt_irrefl MAX_MULTIPLIER_VALUE), max_mult_eq, jround_intCast]
  norm_num [MAX_MULTIPLIER_VALUE]

/-- The positive branch of the validation block for a finite multiplier above
the clamp bound: the value is clamped to `MAX_MULTIPLIER_VALUE` and accepted. -/
theorem validateCrashX_clamped (m : ℚ) (fb : JNum)
    (hm : MAX_MULTIPLIER_VALUE < m) :
    validateCrashX (JNum.num m) fb = some MAX_MULTIPLIER_VALUE := by
  have h0 : (0 : ℚ) < m := lt_trans (by norm_num [MAX_MULTIPLIER_VALUE]) hm
  have ht : (JNum.num m).truthy = true := by
    simp [JNum.truthy]
    exact ne_of_gt h0
  have h1 : (JNum.num m).jle 0 = false := by
    simp [JNum.jle]
    exact h0
  have h2 : (JNum.num m).jgt MAX_MULTIPLIER_VALUE = true := by
    simp [JNum.jgt]
    exact hm
  unfold validateCrashX
  simp only [JNum.jsOr, ht, if_true, ite_true, h1, h2, Bool.false_eq_true,
    if_false, ite_false, JNum.isNanOrInf, jroundTo2, JNum.toQ,
    Option.some.injEq]
  exact jround_max

/-- The validation block accepts `+Infinity` as the clamp bound. -/
theorem validateCrashX_inf (fb : JNum) :
    validateCrashX JNum.inf fb = some MAX_MULTIPLIER_VALUE := by
  unfold validateCrashX
  simp only [JNum.jsOr, JNum.truthy, if_true, ite_true, JNum.jle, JNum.jgt,
    Bool.false_eq_true, if_false, ite_false, JNum.isNanOrInf, jroundTo2,
    JNum.toQ, Option.some.injEq]
  exact jround_max

theorem validateCrashX_replaced (fb : JNum) :
    validateCrashX JNum.inf fb
      = validateCrashX (JNum.num MAX_MULTIPLIER_VALUE) fb := by
  unfold validateCrashX
  norm_num [JNum.jsOr, JNum.truthy, JNum.jle, JNum.jgt, JNum.isNanOrInf,
    MAX_MULTIPLIER_VALUE]

/-- The validation block rejects `NaN`, `-Infinity` and non-positive values
whenever the aggregate's fallback is itself `NaN` or non-positive. -/
theorem validateCrashX_none (crashX fb : JNum)
    (hcrash : crashX = JNum.nan ∨ crashX = JNum.ninf ∨
      ∃ q : ℚ, crashX = JNum.num q ∧ q ≤ 0)
    (hfb : fb = JNum.nan ∨ fb = JNum.ninf ∨
      ∃ f : ℚ, fb = JNum.num f ∧ f ≤ 0) :
    validateCrashX crashX fb = none := by
  have hv1 : (JNum.jsOr crashX (JNum.jsOr fb (JNum.num 0))).jle 0 = true := by
    rcases hcrash with h | h | ⟨q, h, hq⟩ <;> subst h
    · rcases hfb with h | h | ⟨f, h, hf⟩ <;> subst h
      · simp [JNum.jsOr, JNum.truthy, JNum.jle]
      · simp [JNum.jsOr, JNum.truthy, JNum.jle]
      · by_cases hf0 : f = 0
        · subst hf0; simp [JNum.jsOr, JNum.truthy, JNum.jle]
        · simp [JNum.jsOr, JNum.truthy, JNum.jle, hf0, hf]
    · simp [JNum.jsOr, JNum.truthy, JNum.jle]
    · by_cases hq0 : q = 0
      · subst hq0
        rcases hfb with h | h | ⟨f, h, hf⟩ <;> subst h
        · simp [JNum.jsOr, JNum.truthy, JNum.jle]
        · simp [JNum.jsOr, JNum.truthy, JNum.jle]
        · by_cases hf0 : f = 0
          · subst hf0; simp [JNum.jsOr, JNum.truthy, JNum.jle]
          · simp [JNum.jsOr, JNum.truthy, JNum.jle, hf0, hf]
      · simp [JNum.jsOr, JNum.truthy, JNum.jle, hq0, hq]
  simp [validateCrashX, hv1]

theorem saveRoundData_eq (st : SaveState) (bid : Nat) (c : JNum)
    (now : Nat) (rd : RoundAgg) (hrd : st.roundData = some rd) :
    saveRoundData st bid c now =
      match validateCrashX c rd.maxMultiplier with
      | none => st
      | some q => persistRound st bid rd q now := by
  unfold saveRoundData
  rw [hrd]

theorem saveRoundData_some (st : SaveState) (bid : Nat) (c : JNum) (now : Nat)
    (rd : RoundAgg) (q : ℚ) (hrd : st.roundData = some rd)
    (hv : validateCrashX c rd.maxMultiplier = some q) :
    saveRoundData st bid c now = persistRound st bid rd q now := by
  rw [saveRoundData_eq st bid c now rd hrd, hv]

/-! ## Numeric-overflow path -/

/-- `findSimilarRound` finds nothing when no stored multiplier is within the
tolerance. -/
theorem findSimilarRound_none_of_far (db : List Row) (bid : Nat) (m : ℚ)
    (now : Nat) (h : ∀ r ∈ db, ¬ |r.max_multiplier - m| < 1/100) :
    findSimilarRound db bid m now = none := by
  unfold findSimilarRound
  have hfil : db.filter (fun r =>
      r.bookmaker_id == bid && decide (|r.max_multiplier - m| < 1/100) &&
        decide (now < r.timestamp + 300000)) = [] := by
    rw [List.filter_eq_nil_iff]
    intro r hr
    have h2 : ¬ |r.max_multiplier - m| < (100 : ℚ)⁻¹ := by
      rw [← one_div]
      exact h r hr
    simp [h r hr, h2]
  rw [hfil]
  rfl

/-- A write whose multiplier exceeds the `DECIMAL(20,2)` bound raises `22003`
(provided no fresh similar synthesized row intercepts the insert). -/
theorem addRound_overflow (db : List Row) (bid : Nat) (rid : String)
    (bets : Int) (amount : ℚ) (players : Int) (mult cash profit lossPct : ℚ)
    (now : Nat)
    (hdb : findByRoundId db bid rid = none)
    (hsim : ∀ r ∈ db, ¬ |r.max_multiplier - mult| < 1/100)
    (hbig : ¬ |mult| ≤ DEC20_MAX) :
    addRound db bid rid bets amount players mult cash profit lossPct now
      = none := by
  have hfs := findSimilarRound_none_of_far db bid mult now hsim
  unfold addRound
  by_cases ht : isTempId rid
  · simp [hdb, ht, hfs, tryUpsert, rowFits, hbig]
  · simp [hdb, ht, tryUpsert, rowFits, hbig]

/-- Persisting with the clamp value `MAX_MULTIPLIER_VALUE = 1e18` overflows
`DECIMAL(20,2)`: the insert raises `22003`, the `Math.min` retry reuses the
same value and raises again, the rethrown error reaches the outer catch and
the round is diverted to the backup log — neither the store nor the dedup
set changes. -/
theorem persistRound_overflow (st : SaveState) (bid : Nat) (rd : RoundAgg)
    (now : Nat) (rid : String)
    (hrid : rd.roundId = some rid)
    (hdb : findByRoundId st.db bid rid = none)
    (hinv : ∀ r ∈ st.db, r.max_multiplier ≤ DEC20_MAX) :
    (persistRound st bid rd MAX_MULTIPLIER_VALUE now).db = st.db ∧
    (persistRound st bid rd MAX_MULTIPLIER_VALUE now).savedRounds
      = st.savedRounds := by
  have hfar : ∀ r ∈ st.db,
      ¬ |r.max_multiplier - MAX_MULTIPLIER_VALUE| < 1/100 := by
    intro r hr
    have h1 := hinv r hr
    rw [abs_sub_comm, abs_of_nonneg (by
      simp only [DEC20_MAX, MAX_MULTIPLIER_VALUE] at h1 ⊢
      linarith)]
    simp only [DEC20_MAX, MAX_MULTIPLIER_VALUE] at h1 ⊢
    linarith
  have hbig : ¬ |MAX_MULTIPLIER_VALUE| ≤ DEC20_MAX := by
    rw [abs_of_nonneg (by norm_num [MAX_MULTIPLIER_VALUE])]
    norm_num [MAX_MULTIPLIER_VALUE, DEC20_MAX]
  have hsafe := safeDecimalValue_max
  have hmin : min MAX_MULTIPLIER_VALUE MAX_MULTIPLIER_VALUE
      = MAX_MULTIPLIER_VALUE := min_self _
  have hadd := addRound_overflow st.db bid rid rd.betsCount
    (safeDecimalValue (JNum.jsOr rd.totalBetAmount (JNum.num 0)) 2
      MAX_MULTIPLIER_VALUE)
    rd.onlinePlayers MAX_MULTIPLIER_VALUE
    (safeDecimalValue (JNum.jsOr rd.totalCashout (JNum.num 0)) 2
      MAX_MULTIPLIER_VALUE)
    (safeDecimalValue (JNum.jsub (JNum.jsOr rd.totalBetAmount (JNum.num 0))
      (JNum.jsOr rd.totalCashout (JNum.num 0))) 2 MAX_MULTIPLIER_VALUE)
    (safeDecimalValue (if (JNum.jsOr rd.totalBetAmount (JNum.num 0)).jgt 0
      then JNum.jmul (JNum.jdiv
        (JNum.jsub (JNum.jsOr rd.totalBetAmount (JNum.num 0))
          (JNum.jsOr rd.totalCashout (JNum.num 0)))
        (JNum.jsOr rd.totalBetAmount (JNum.num 0))) (JNum.num 100)
      else JNum.num 0) 2 MAX_MULTIPLIER_VALUE)
    now hdb hfar hbig
  unfold persistRound
  by_cases hkey : (bid, rid) ∈ st.savedRounds
  · simp only [hrid, if_pos hkey]
    constructor <;> trivial
  · by_cases ht : isTempId rid
    · have hfs := findSimilarRound_none_of_far st.db bid
        MAX_MULTIPLIER_VALUE now hfar
      by_cases hbump : JNum.jgtJ (JNum.num MAX_MULTIPLIER_VALUE)
          rd.maxMultiplier
      · simp only [hrid, if_neg hkey, hdb, ht, hfs, hbump, hsafe, hmin,
          if_true, ite_true, hadd]
        constructor <;> trivial
      · simp only [hrid, if_neg hkey, hdb, ht, hfs, hbump, hsafe, hmin,
          Bool.false_eq_true, if_false, ite_false, if_true, ite_true, hadd]
        constructor <;> trivial
    · by_cases hbump : JNum.jgtJ (JNum.num MAX_MULTIPLIER_VALUE)
          rd.maxMultiplier
      · simp only [hrid, if_neg hkey, hdb, ht, hbump, hsafe, hmin,
          Bool.false_eq_true, if_false, ite_false, if_true, ite_true, hadd]
        constructor <;> trivial
      · simp only [hrid, if_neg hkey, hdb, ht, hbump, hsafe, hmin,
          Bool.false_eq_true, if_false, ite_false, if_true, ite_true, hadd]
        constructor <;> trivial

/-! ## C3 -/

/-- C3: persist rejects invalid multipliers without touching the store or
the dedup set.  A `NaN`, `-Infinity` or non-positive crash multiplier (with
no positive fallback in the aggregate) is rejected by the validation block
and the call returns with the state exactly unchanged.  A `+Infinity` crash
multiplier passes validation clamped to `1e18`, but that value overflows the
`DECIMAL(20,2)` column: the insert and its `Math.min` retry both raise
`22003`, the round is diverted to the backup log, and the durable store and
the in-process dedup set are again unchanged. -/
theorem invalid_multiplier_skip (st : SaveState) (bid : Nat) (now : Nat) :
    (∀ crashX : JNum,
      (crashX = JNum.nan ∨ crashX = JNum.ninf ∨
        ∃ q : ℚ, crashX = JNum.num q ∧ q ≤ 0) →
      (∀ rd : RoundAgg, st.roundData = some rd →
        rd.maxMultiplier = JNum.nan ∨ rd.maxMultiplier = JNum.ninf ∨
        ∃ f : ℚ, rd.maxMultiplier = JNum.num f ∧ f ≤ 0) →
      saveRoundData st bid crashX now = st) ∧
    (∀ (rd : RoundAgg) (rid : String),
      st.roundData = some rd → rd.roundId = some rid →
      findByRoundId st.db bid rid = none →
      (∀ r ∈ st.db, r.max_multiplier ≤ DEC20_MAX) →
      (saveRoundData st bid JNum.inf now).db = st.db ∧
      (saveRoundData st bid JNum.inf now).savedRounds = st.savedRounds) := by
  constructor
  · intro crashX hcrash hfb
    unfold saveRoundData
    cases h : st.roundData with
    | none => rfl
    | some rd0 =>
        simp [validateCrashX_none crashX rd0.maxMultiplier hcrash (hfb rd0 h)]
  · intro rd rid hrd hrid hdbn hinv
    have hstep := saveRoundData_some st bid JNum.inf now rd
      MAX_MULTIPLIER_VALUE hrd (validateCrashX_inf rd.maxMultiplier)
    rw [hstep]
    exact persistRound_overflow st bid rd now rid hrid hdbn hinv

theorem invalid_multiplier_skip_witness :
    saveRoundData testState 1 JNum.nan 77 = testState ∧
    (saveRoundData testState 1 JNum.inf 77).db = testState.db ∧
    (saveRoundData testState 1 JNum.inf 77).savedRounds
      = testState.savedRounds :=
  ⟨(invalid_multiplier_skip testState 1 77).1 JNum.nan (Or.inl rfl)
      (fun rd h => by
        simp only [testState, Option.some.injEq] at h
        subst h
        exact Or.inr (Or.inr ⟨0, rfl, le_refl 0⟩)),
    ((invalid_multiplier_skip testState 1 77).2 testAgg "srv1001" rfl rfl rfl
      (by simp [testState])).1,
    ((invalid_multiplier_skip testState 1 77).2 testAgg "srv1001" rfl rfl rfl
      (by simp [testState])).2⟩

/-! ## C4 -/

/-- C4, counterexample: a crash multiplier of `1e30` is NOT persisted.  The
claim says the round persists with the stored maximum and "the call never
errors out", but the clamp constant is the double `1e18`
(`999999999999999999.99` rounds up to it), which itself exceeds the
`DECIMAL(20,2)` maximum `999999999999999999.99`: the insert raises the
numeric-overflow error `22003`, the retry clamps with `Math.min` to the same
`1e18` and raises again, and the round is diverted to the backup log — from
a fresh state, no row is written and the dedup key is not recorded. -/
theorem max_clamp_overflows :
    testState.db = [] ∧
    (saveRoundData testState 1 (JNum.num (10 ^ 30)) 0).db = [] ∧
    (saveRoundData testState 1 (JNum.num (10 ^ 30)) 0).savedRounds = [] := by
  have hstep := saveRoundData_some testState 1 (JNum.num (10 ^ 30)) 0 testAgg
    MAX_MULTIPLIER_VALUE rfl (validateCrashX_clamped (10 ^ 30)
      testAgg.maxMultiplier (by norm_num [MAX_MULTIPLIER_VALUE]))
  have h2 := persistRound_overflow testState 1 testAgg 0 "srv1001" rfl rfl
    (by simp [testState])
  exact ⟨rfl, by rw [hstep]; exact h2.1, by rw [hstep]; exact h2.2⟩

/-- C4, amended: a multiplier above the clamp bound (such as `1e30`) is
clamped to `MAX_MULTIPLIER_VALUE = 1e18` (the double value of the literal
`999999999999999999.99`) by the validation block — but that bound exceeds
the `DECIMAL(20,2)` storage maximum, so the subsequent insert raises the
numeric-overflow error `22003`, the `Math.min` retry reuses the same value
and fails again, and the round is diverted to the backup log instead of
being persisted: the store and the dedup set are unchanged.
`safeDecimalValue` still clamps every finite value above its bound down to
the bound and always returns a two-decimal value. -/
theorem numeric_clamp_max (st : SaveState) (bid now : Nat) (rd : RoundAgg)
    (rid : String) (m : ℚ)
    (hrd : st.roundData = some rd) (hrid : rd.roundId = some rid)
    (hdbn : findByRoundId st.db bid rid = none)
    (hinv : ∀ r ∈ st.db, r.max_multiplier ≤ DEC20_MAX)
    (hm : MAX_MULTIPLIER_VALUE < m) :
    validateCrashX (JNum.num m) rd.maxMultiplier
      = some MAX_MULTIPLIER_VALUE ∧
    DEC20_MAX < MAX_MULTIPLIER_VALUE ∧
    (saveRoundData st bid (JNum.num m) now).db = st.db ∧
    (saveRoundData st bid (JNum.num m) now).savedRounds = st.savedRounds ∧
    (∀ q : ℚ, MAX_MULTIPLIER_VALUE < q →
      safeDecimalValue (JNum.num q) 2 MAX_MULTIPLIER_VALUE
        = MAX_MULTIPLIER_VALUE) ∧
    (∀ (v : JNum) (d : Nat) (b : ℚ),
      ∃ n : ℤ, safeDecimalValue v d b = (n : ℚ) / 10 ^ d) := by
  have hstep := saveRoundData_some st bid (JNum.num m) now rd
    MAX_MULTIPLIER_VALUE hrd (validateCrashX_clamped m rd.maxMultiplier hm)
  have hover := persistRound_overflow st bid rd now rid hrid hdbn hinv
  refine ⟨validateCrashX_clamped m rd.maxMultiplier hm,
    by norm_num [DEC20_MAX, MAX_MULTIPLIER_VALUE],
    by rw [hstep]; exact hover.1, by rw [hstep]; exact hover.2, ?_, ?_⟩
  · intro q hq
    simp only [safeDecimalValue]
    rw [if_pos hq, max_mult_eq, jround_intCast]
    norm_num [MAX_MULTIPLIER_VALUE]
  · intro v d b
    cases v with
    | num q => exact ⟨jround ((if q > b then b else q) * 10 ^ d), rfl⟩
    | nan => exact ⟨0, by simp [safeDecimalValue]⟩
    | inf => exact ⟨0, by simp [safeDecimalValue]⟩
    | ninf => exact ⟨0, by simp [safeDecimalValue]⟩

theorem numeric_clamp_max_witness :
    MAX_MULTIPLIER_VALUE < (10 ^ 30 : ℚ) ∧
    (saveRoundData testState 1 (JNum.num (10 ^ 30)) 0).db = testState.db ∧
    safeDecimalValue (JNum.num (10 ^ 30)) 2 MAX_MULTIPLIER_VALUE
      = MAX_MULTIPLIER_VALUE :=
  ⟨by norm_num [MAX_MULTIPLIER_VALUE],
    (numeric_clamp_max testState 1 0 testAgg "srv1001" (10 ^ 30) rfl rfl rfl
      (by simp [testState]) (by norm_num [MAX_MULTIPLIER_VALUE])).2.2.1,
    (numeric_clamp_max testState 1 0 testAgg "srv1001" (10 ^ 30) rfl rfl rfl
      (by simp [testState])
      (by norm_num [MAX_MULTIPLIER_VALUE])).2.2.2.2.1 (10 ^ 30)
      (by norm_num [MAX_MULTIPLIER_VALUE])⟩


/-! ## C8 -/

/-- C8: in auto mode, a buffer starting with `0x80` followed by `0x00` or
`0x01` (a canonical Format-A compressed frame header) is always dispatched to
the Format-A (`sfs`) decoder, never to Format B (`msgpack`). -/
theorem auto_detect_sfs_frame (bs : List Nat) (hlen : 2 ≤ bs.length)
    (h0 : bs.getD 0 0 = 0x80) (h1 : bs.getD 1 0 = 0x00 ∨ bs.getD 1 0 = 0x01) :
    detectDecoderType bs = "sfs" := by
  obtain ⟨b0, b1, rest, rfl⟩ : ∃ b0 b1 rest, bs = b0 :: b1 :: rest := by
    cases bs with
    | nil => simp at hlen
    | cons b0 t =>
      cases t with
      | nil => simp at hlen
      | cons b1 r => exact ⟨b0, b1, r, rfl⟩
  simp only [List.getD_cons_zero, List.getD_cons_succ] at h0 h1
  subst h0
  rcases h1 with h1 | h1 <;> subst h1 <;>
    simp [detectDecoderType, isMessagePackMessage]

theorem auto_detect_sfs_frame_witness :
    2 ≤ ([0x80, 0x00, 0x0c, 0x78, 0x9c] : List Nat).length ∧
      detectDecoderType [0x80, 0x00, 0x0c, 0x78, 0x9c] = "sfs" :=
  ⟨by decide,
    auto_detect_sfs_frame [0x80, 0x00, 0x0c, 0x78, 0x9c] (by decide) (by decide)
      (Or.inl (by decide))⟩

/-! ## C9 -/

/-- C9: for every byte buffer and every decoder mode, the unified
`decodeMessage` returns normally with a decoded value or `null` — no header
error, unsupported tag, decompression failure or library exception ever
escapes to the caller, whatever the external `inflate` and `msgpack.decode`
functions do. -/
theorem decode_never_throws (inflate : List Nat → Except String (List Nat))
    (mpRaw : List Nat → Except String JVal) (bs : List Nat)
    (decoderType : String) :
    ∃ r : Option Decoded,
      unifiedDecodeMessage inflate mpRaw bs decoderType = Except.ok r := by
  unfold unifiedDecodeMessage
  cases h : unifiedDecodeBody inflate mpRaw bs decoderType with
  | error e => exact ⟨none, rfl⟩
  | ok r => exact ⟨r, rfl⟩

/-! ## C10 -/

/-- C10: `safeDecimalValue` silently maps `NaN` and both infinities to `0`
(so an aggregate with a `NaN` or infinite bet total, cash-out total or
casino profit is persisted with those fields stored as `0`), clamps finite
inputs above `maxValue` to `maxValue`, and always returns a value with at
most the requested number of decimal places. -/
theorem safeDecimalValue_spec :
    (∀ (d : Nat) (m : ℚ), safeDecimalValue JNum.nan d m = 0 ∧
      safeDecimalValue JNum.inf d m = 0 ∧ safeDecimalValue JNum.ninf d m = 0) ∧
    (∀ (q : ℚ) (d : Nat) (m : ℚ), m < q →
      safeDecimalValue (JNum.num q) d m = safeDecimalValue (JNum.num m) d m) ∧
    (∀ (v : JNum) (d : Nat) (m : ℚ),
      ∃ n : ℤ, safeDecimalValue v d m = (n : ℚ) / 10 ^ d) ∧
    ((saveRoundData infBetState 1 (JNum.num 2) 0).db.map
      (fun r => (r.total_bet_amount, r.casino_profit, r.loss_percentage))
        = [(0, 0, 0)]) ∧
    ((saveRoundData nanBetState 1 (JNum.num 2) 0).db.map
      (fun r => r.total_bet_amount) = [0]) := by
  refine ⟨fun d m => ⟨rfl, rfl, rfl⟩, ?_, ?_, ?_, ?_⟩
  · intro q d m hlt
    simp only [safeDecimalValue]
    rw [if_pos hlt, if_neg (lt_irrefl m)]
  · intro v d m
    cases v with
    | num q => exact ⟨jround ((if q > m then m else q) * 10 ^ d), rfl⟩
    | nan => exact ⟨0, by simp [safeDecimalValue]⟩
    | inf => exact ⟨0, by simp [safeDecimalValue]⟩
    | ninf => exact ⟨0, by simp [safeDecimalValue]⟩
  · norm_num [saveRoundData, infBetState, testAgg, validateCrashX, persistRound,
      MAX_MULTIPLIER_VALUE, DEC20_MAX, DEC15_MAX, DEC5_MAX, JNum.jsOr,
      JNum.truthy, JNum.jle, JNum.jgt, JNum.isNanOrInf, jroundTo2, JNum.toQ,
      jround, isTempId, findByRoundId, addKey, addRound, tryUpsert, rowFits,
      persistSuccess, upsertRow, findSimilarRound, latestRow, JNum.jgtJ,
      JNum.jsub, JNum.jmul, JNum.jdiv, safeDecimalValue]
  · norm_num [saveRoundData, nanBetState, testAgg, validateCrashX, persistRound,
      MAX_MULTIPLIER_VALUE, DEC20_MAX, DEC15_MAX, DEC5_MAX, JNum.jsOr,
      JNum.truthy, JNum.jle, JNum.jgt, JNum.isNanOrInf, jroundTo2, JNum.toQ,
      jround, isTempId, findByRoundId, addKey, addRound, tryUpsert, rowFits,
      persistSuccess, upsertRow, findSimilarRound, latestRow, JNum.jgtJ,
      JNum.jsub, JNum.jmul, JNum.jdiv, safeDecimalValue]

theorem safeDecimalValue_spec_witness :
    (1 : ℚ) < 5 ∧ safeDecimalValue (JNum.num 5) 2 1
      = safeDecimalValue (JNum.num 1) 2 1 :=
  ⟨by norm_num, safeDecimalValue_spec.2.1 5 2 1 (by norm_num)⟩

/-! ## C5 -/

theorem detectPattern_isSome_iff (l : List RecRow) (hlen : 3 ≤ l.length) :
    (detectPattern l).isSome = true ↔
      ((l.getD 0 default).max_multiplier > 3/2 ∧
       (l.getD 1 default).max_multiplier > 3/2 ∧
       (l.getD 2 default).max_multiplier < 2) := by
  have hne : ¬ l.length < 3 := by omega
  by_cases h : ((l.getD 0 default).max_multiplier > 3/2 ∧
      (l.getD 1 default).max_multiplier > 3/2 ∧
      (l.getD 2 default).max_multiplier < 2)
  · have heq : detectPattern l = some ((l.getD 0 default).max_multiplier,
        (l.getD 1 default).max_multiplier, (l.getD 2 default).max_multiplier) := by
      unfold detectPattern
      rw [if_neg hne]
      exact if_pos h
    rw [heq]
    simpa using h
  · have heq : detectPattern l = none := by
      unfold detectPattern
      rw [if_neg hne]
      exact if_neg h
    rw [heq]
    simpa using h

/-- C5: with no pending signal for the source, an unseen result key, and at
least three unique recent rounds, `processNewResult` creates a new signal
exactly when `multiplier[0] > 1.50`, `multiplier[1] > 1.50` and
`multiplier[2] < 2.00` hold of the three most recent unique rounds
(newest first, strict comparisons). -/
theorem pattern_trigger_iff (st : EngineState) (bid : Nat) (rid : String)
    (mult : ℚ) (recents : List RecRow)
    (hpend : st.pending = none)
    (hkey : (bid, rid, mult) ∉ st.processed)
    (hlen : 3 ≤ (dedupeByRoundId recents).length) :
    ((processNewResult st bid rid mult recents).dbSignals.length
        = st.dbSignals.length + 1)
      ↔ (((dedupeByRoundId recents).getD 0 default).max_multiplier > 3/2 ∧
         ((dedupeByRoundId recents).getD 1 default).max_multiplier > 3/2 ∧
         ((dedupeByRoundId recents).getD 2 default).max_multiplier < 2) := by
  rw [← detectPattern_isSome_iff _ hlen]
  unfold processNewResult
  rw [if_neg hkey]
  by_cases htrim : st.processed.length + 1 > 1000 <;>
    cases hdp : detectPattern (dedupeByRoundId recents) <;>
      simp [htrim, hpend, hlen, hdp, emitSignal]

theorem pattern_trigger_iff_witness :
    (processNewResult initEngine 7 "a" (9/5)
        [{ max_multiplier := 9/5, round_id := "a" },
         { max_multiplier := 8/5, round_id := "b" },
         { max_multiplier := 19/10, round_id := "c" }]).dbSignals.length
      = initEngine.dbSignals.length + 1 :=
  (pattern_trigger_iff initEngine 7 "a" (9/5)
      [{ max_multiplier := 9/5, round_id := "a" },
       { max_multiplier := 8/5, round_id := "b" },
       { max_multiplier := 19/10, round_id := "c" }]
      rfl (by simp [initEngine]) (by simp [dedupeByRoundId])).mpr
    (by simp [dedupeByRoundId]; norm_num)



/-! ## C7 -/

theorem length_le_one_of_all_eq {α : Type} {l : List α} {s : α}
    (hnd : l.Nodup) (hall : ∀ x ∈ l, x = s) : l.length ≤ 1 := by
  match l, hnd, hall with
  | [], _, _ => simp
  | [a], _, _ => simp
  | a :: b :: t, hnd, hall =>
    exfalso
    have ha := hall a (by simp)
    have hb := hall b (by simp)
    have : a ≠ b := by
      intro h
      exact (List.nodup_cons.mp hnd).1 (h ▸ List.mem_cons_self b t)
    exact this (ha.trans hb.symm)

theorem replaceSignal_map_id (l : List Signal) (sid : Nat) (s2 : Signal)
    (h2 : s2.id = sid) :
    (replaceSignal l sid s2).map (fun s => s.id) = l.map (fun s => s.id) := by
  induction l with
  | nil => rfl
  | cons a t ih =>
    by_cases ha : a.id = sid <;>
      simp [replaceSignal, ha, h2] <;>
      simpa [replaceSignal] using ih

theorem mem_replaceSignal {l : List Signal} {sid : Nat} {s2 y : Signal}
    (hy : y ∈ replaceSignal l sid s2) :
    ∃ x ∈ l, y = if x.id == sid then s2 else x := by
  simp only [replaceSignal, List.mem_map] at hy
  obtain ⟨x, hx, hxy⟩ := hy
  exact ⟨x, hx, hxy.symm⟩

theorem self_mem_replaceSignal {l : List Signal} {s0 : Signal} {sid : Nat}
    (s2 : Signal) (hmem : s0 ∈ l) (hid : s0.id = sid) :
    s2 ∈ replaceSignal l sid s2 := by
  simp only [replaceSignal, List.mem_map]
  exact ⟨s0, hmem, by simp [hid]⟩

theorem verifySignal_inv {bid sid : Nat} {st : EngineState} (rid : String)
    (mult : ℚ) (hinv : EngineInv bid st) (hp : st.pending = some sid) :
    EngineInv bid (verifySignal st sid bid rid mult) := by
  obtain ⟨hbk, hnd, hpend⟩ := hinv
  rw [hp] at hpend
  obtain ⟨s0, hs0mem, hs0id, hs0stat, huniq⟩ := hpend
  have hfind : (st.dbSignals.filter
      (fun s => s.bookmakerId == bid && s.status == SigStatus.pending)).find?
        (fun s => s.id == sid) = some s0 := by
    have hex : ((st.dbSignals.filter
        (fun s => s.bookmakerId == bid && s.status == SigStatus.pending)).find?
          (fun s => s.id == sid)).isSome = true := by
      rw [List.find?_isSome]
      exact ⟨s0, by simp [List.mem_filter, hs0mem, (hbk s0 hs0mem).1, hs0stat],
        by simp [hs0id]⟩
    obtain ⟨x, hx⟩ := Option.isSome_iff_exists.mp hex
    have hxmem := List.mem_of_find?_eq_some hx
    have hxdb : x ∈ st.dbSignals := (List.mem_filter.mp hxmem).1
    have hxpend : x.status = SigStatus.pending := by
      have h2 := (List.mem_filter.mp hxmem).2
      simp at h2
      exact h2.2
    rw [hx, huniq x hxdb hxpend]
  unfold verifySignal
  simp only [hfind]
  have hbk0 := hbk s0 hs0mem
  have hrep : ∀ (s2 : Signal), ∀ y ∈ replaceSignal st.dbSignals sid s2,
      y = s2 ∨ (y ∈ st.dbSignals ∧ y.id ≠ sid) := by
    intro s2 y hy
    obtain ⟨x, hxl, hxy⟩ := mem_replaceSignal hy
    by_cases hxid : x.id = sid
    · left
      rw [hxy]
      simp [hxid]
    · right
      have hyx : y = x := by rw [hxy]; simp [hxid]
      rw [hyx]
      exact ⟨hxl, hxid⟩
  have hins : ∀ (s2 : Signal), s2.id = sid → s2.bookmakerId = bid →
      s2.id < st.nextId →
      (∀ y ∈ replaceSignal st.dbSignals sid s2,
        y.bookmakerId = bid ∧ y.id < st.nextId) ∧
      ((replaceSignal st.dbSignals sid s2).map (fun s => s.id)).Nodup := by
    intro s2 h1 h2 h3
    constructor
    · intro y hy
      rcases hrep s2 y hy with h | ⟨hmem, _⟩
      · rw [h]; exact ⟨h2, h3⟩
      · exact hbk y hmem
    · rw [replaceSignal_map_id _ _ _ h1]
      exact hnd
  have hclear : ∀ (s2 : Signal), s2.id = sid → s2.bookmakerId = bid →
      s2.id < st.nextId → s2.status ≠ SigStatus.pending →
      EngineInv bid { pending := none, processed := st.processed,
                      dbSignals := replaceSignal st.dbSignals sid s2,
                      nextId := st.nextId } := by
    intro s2 h1 h2 h3 h4
    refine ⟨(hins s2 h1 h2 h3).1, (hins s2 h1 h2 h3).2, ?_⟩
    intro y hy
    rcases hrep s2 y hy with h | ⟨hmem, hid⟩
    · rw [h]; exact h4
    · intro hpend2
      exact hid (by rw [huniq y hmem hpend2, hs0id])
  have hkeep : ∀ (s2 : Signal), s2.id = sid → s2.bookmakerId = bid →
      s2.id < st.nextId → s2.status = SigStatus.pending →
      EngineInv bid { pending := st.pending, processed := st.processed,
                      dbSignals := replaceSignal st.dbSignals sid s2,
                      nextId := st.nextId } := by
    intro s2 h1 h2 h3 h4
    refine ⟨(hins s2 h1 h2 h3).1, (hins s2 h1 h2 h3).2, ?_⟩
    simp only [hp]
    refine ⟨s2, self_mem_replaceSignal s2 hs0mem hs0id, h1, h4, ?_⟩
    intro t ht hpend2
    rcases hrep s2 t ht with h | ⟨hmem, hid⟩
    · exact h
    · exact absurd (by rw [huniq t hmem hpend2, hs0id]) hid
  by_cases hw : mult > 3/2 <;> rcases hsfa : s0.firstAttempt with _ | v
  case pos.none =>
    have hwt : decide (mult > 3/2) = true := decide_eq_true hw
    simp only [hsfa, hwt, if_true]
    exact hclear _ hs0id hbk0.1 hbk0.2 (by simp)
  case pos.some =>
    have hwt : decide (mult > 3/2) = true := decide_eq_true hw
    simp only [hsfa, hwt, Bool.false_eq_true, if_false]
    exact hclear _ hs0id hbk0.1 hbk0.2 (by simp)
  case neg.none =>
    have hwf : decide (mult > 3/2) = false := decide_eq_false hw
    simp only [hsfa, hwf, if_true, Bool.false_eq_true, if_false]
    exact hkeep _ hs0id hbk0.1 hbk0.2 (by simp)
  case neg.some =>
    have hwf : decide (mult > 3/2) = false := decide_eq_false hw
    simp only [hsfa, hwf, Bool.false_eq_true, if_false]
    exact hclear _ hs0id hbk0.1 hbk0.2 (by simp)

theorem emitSignal_inv {bid : Nat} {st : EngineState} (pat : ℚ × ℚ × ℚ)
    (hinv : EngineInv bid st) : EngineInv bid (emitSignal st bid pat) := by
  obtain ⟨hbk, hnd, hpend⟩ := hinv
  unfold emitSignal
  cases hp : st.pending with
  | some sid =>
    simp only [hp, Option.isSome_some, if_true]
    exact ⟨hbk, hnd, by rw [hp] at hpend ⊢; exact hpend⟩
  | none =>
    rw [hp] at hpend
    simp only [hp, Option.isSome_none, Bool.false_eq_true, if_false]
    refine ⟨?_, ?_, ?_⟩
    · intro s hs
      rcases List.mem_append.mp hs with h | h
      · obtain ⟨h1, h2⟩ := hbk s h
        exact ⟨h1, Nat.lt_succ_of_lt h2⟩
      · simp only [List.mem_singleton] at h
        subst h
        exact ⟨rfl, Nat.lt_succ_self _⟩
    · rw [List.map_append]
      rw [List.nodup_append]
      refine ⟨hnd, List.nodup_singleton _, ?_⟩
      intro a ha hb
      simp only [List.map_cons, List.map_nil, List.mem_singleton] at hb
      obtain ⟨s, hs, hsa⟩ := List.mem_map.mp ha
      have := (hbk s hs).2
      omega
    · refine ⟨_, List.mem_append.mpr (Or.inr (List.mem_singleton_self _)),
        rfl, rfl, ?_⟩
      intro t ht hstat
      rcases List.mem_append.mp ht with h | h
      · exact absurd hstat (hpend t h)
      · simpa using h

set_option maxRecDepth 4000 in
theorem processNewResult_inv {bid : Nat} {st : EngineState}
    (rid : String) (mult : ℚ) (recents : List RecRow)
    (hinv : EngineInv bid st) :
    EngineInv bid (processNewResult st bid rid mult recents) := by
  unfold processNewResult
  by_cases hkey : (bid, rid, mult) ∈ st.processed
  · rw [if_pos hkey]
    exact hinv
  · rw [if_neg hkey]
    have hverify : ∀ (st2 : EngineState) (po : Option Nat), st2.pending = po →
        EngineInv bid st2 →
        EngineInv bid (match po with
          | some sid => verifySignal st2 sid bid rid mult
          | none => st2) := by
      intro st2 po hpo hinv2
      cases po with
      | none => exact hinv2
      | some sid => exact verifySignal_inv rid mult hinv2 hpo
    have hdetect : ∀ (st3 : EngineState), EngineInv bid st3 →
        EngineInv bid
          (if (dedupeByRoundId recents).length ≥ 3 then
            match detectPattern (dedupeByRoundId recents) with
            | some pat => emitSignal st3 bid pat
            | none => st3
          else st3) := by
      intro st3 hinv3
      by_cases hlen : (dedupeByRoundId recents).length ≥ 3
      · rw [if_pos hlen]
        cases detectPattern (dedupeByRoundId recents) with
        | none => exact hinv3
        | some pat => exact emitSignal_inv pat hinv3
      · rw [if_neg hlen]
        exact hinv3
    by_cases htrim : (st.processed ++ [(bid, rid, mult)]).length > 1000
    · simp only [htrim, if_true]
      refine hdetect _ (hverify _ st.pending rfl ?_)
      exact hinv
    · simp only [htrim, Bool.false_eq_true, if_false]
      refine hdetect _ (hverify _ st.pending rfl ?_)
      exact hinv

theorem runEngine_inv (bid : Nat) (calls : List EngineCall) (st : EngineState)
    (hinv : EngineInv bid st) : EngineInv bid (runEngine st bid calls) := by
  induction calls generalizing st with
  | nil => exact hinv
  | cons c rest ih =>
    exact ih _ (processNewResult_inv c.rid c.mult c.recents hinv)

theorem initEngine_inv (bid : Nat) : EngineInv bid initEngine := by
  refine ⟨?_, ?_, ?_⟩ <;> simp [initEngine]

/-- C7: in every engine state reachable by any sequence of
`processNewResult` calls (with arbitrary store read-backs), each source has
at most one pending signal, and whenever the in-memory slot is occupied it
points at a stored signal that is still `pending` — `emitSignal` refuses to
create a signal while the slot is occupied, and the slot is only cleared
when the signal is resolved. -/
theorem at_most_one_pending (bid : Nat) (calls : List EngineCall) :
    pendingCount (runEngine initEngine bid calls).dbSignals ≤ 1 ∧
    (∀ sid, (runEngine initEngine bid calls).pending = some sid →
      ∃ s ∈ (runEngine initEngine bid calls).dbSignals,
        s.id = sid ∧ s.status = SigStatus.pending) := by
  obtain ⟨hbk, hnd, hpend⟩ := runEngine_inv bid calls initEngine (initEngine_inv bid)
  constructor
  · cases hp : (runEngine initEngine bid calls).pending with
    | none =>
      rw [hp] at hpend
      have : (runEngine initEngine bid calls).dbSignals.filter
          (fun s => s.status == SigStatus.pending) = [] := by
        rw [List.filter_eq_nil_iff]
        intro a ha
        simp [hpend a ha]
      rw [pendingCount, this]
      simp
    | some sid =>
      rw [hp] at hpend
      obtain ⟨s0, hs0mem, _, _, huniq⟩ := hpend
      apply length_le_one_of_all_eq
      · exact ((List.Nodup.of_map _ hnd).filter _)
      · intro x hx
        have hxm := (List.mem_filter.mp hx).1
        have hxs := (List.mem_filter.mp hx).2
        simp at hxs
        exact huniq x hxm hxs
  · intro sid hp
    rw [hp] at hpend
    obtain ⟨s0, hs0mem, h1, h2, _⟩ := hpend
    exact ⟨s0, hs0mem, h1, h2⟩

theorem at_most_one_pending_witness :
    ∃ s ∈ (runEngine initEngine 7
        [{ rid := "a", mult := 9/5,
           recents := [{ max_multiplier := 9/5, round_id := "a" },
                       { max_multiplier := 8/5, round_id := "b" },
                       { max_multiplier := 19/10, round_id := "c" }] }]).dbSignals,
      s.id = 0 ∧ s.status = SigStatus.pending :=
  (at_most_one_pending 7
    [{ rid := "a", mult := 9/5,
       recents := [{ max_multiplier := 9/5, round_id := "a" },
                   { max_multiplier := 8/5, round_id := "b" },
                   { max_multiplier := 19/10, round_id := "c" }] }]).2 0
    (by
      simp [runEngine, processNewResult, initEngine, dedupeByRoundId,
        detectPattern, emitSignal]
      norm_num)


/-! ## C6 -/

theorem verifySignal_wf {st : EngineState} {sid bid : Nat} {rid : String}
    {mult : ℚ} (hwf : ∀ s ∈ st.dbSignals, WFSig s) :
    ∀ s ∈ (verifySignal st sid bid rid mult).dbSignals, WFSig s := by
  unfold verifySignal
  cases hfind : (st.dbSignals.filter
      (fun s => s.bookmakerId == bid && s.status == SigStatus.pending)).find?
        (fun s => s.id == sid) with
  | none =>
    simp only [hfind]
    exact hwf
  | some s0 =>
    have hs0f := List.mem_of_find?_eq_some hfind
    have hs0db : s0 ∈ st.dbSignals := (List.mem_filter.mp hs0f).1
    have hs0stat : s0.status = SigStatus.pending := by
      have h2 := (List.mem_filter.mp hs0f).2
      simp at h2
      exact h2.2
    have hwf0 := hwf s0 hs0db
    obtain ⟨hlen0, hfa0, hsa0, hps0⟩ := hwf0
    have hsnd0 : s0.secondAttempt = none := hps0 hs0stat
    have hrepl : ∀ (s2 : Signal), WFSig s2 →
        ∀ y ∈ replaceSignal st.dbSignals sid s2, WFSig y := by
      intro s2 h2 y hy
      obtain ⟨x, hxl, hxy⟩ := mem_replaceSignal hy
      by_cases hxid : x.id = sid
      · rw [hxy]
        simpa [hxid] using h2
      · have hyx : y = x := by rw [hxy]; simp [hxid]
        rw [hyx]
        exact hwf x hxl
    by_cases hw : mult > 3/2 <;> cases hsfa : s0.firstAttempt
    case pos.none =>
      have hwt : decide (mult > 3/2) = true := decide_eq_true hw
      have hempty : s0.attempts = [] := hfa0 hsfa
      simp only [hfind, hsfa, hwt, if_true]
      intro y hy
      refine hrepl _ ?_ y hy
      unfold WFSig
      refine ⟨?_, ?_, ?_, ?_⟩
      · simp [hempty]
      · intro h
        simp at h
      · intro h
        simp [hempty]
      · intro h
        simp [hsnd0]
    case pos.some v =>
      have hwt : decide (mult > 3/2) = true := decide_eq_true hw
      have hle1 : s0.attempts.length ≤ 1 := hsa0 hsnd0
      simp only [hfind, hsfa, hwt, Bool.false_eq_true, if_false]
      intro y hy
      refine hrepl _ ?_ y hy
      unfold WFSig
      refine ⟨?_, ?_, ?_, ?_⟩
      · simp
        omega
      · intro h
        simp at h
      · intro h
        simp at h
      · intro h
        simp at h
    case neg.none =>
      have hwf2 : decide (mult > 3/2) = false := decide_eq_false hw
      have hempty : s0.attempts = [] := hfa0 hsfa
      simp only [hfind, hsfa, hwf2, if_true, Bool.false_eq_true, if_false]
      intro y hy
      refine hrepl _ ?_ y hy
      unfold WFSig
      refine ⟨?_, ?_, ?_, ?_⟩
      · simp [hempty]
      · intro h
        simp at h
      · intro h
        simp [hempty]
      · intro h
        simp [hsnd0]
    case neg.some v =>
      have hwf2 : decide (mult > 3/2) = false := decide_eq_false hw
      have hle1 : s0.attempts.length ≤ 1 := hsa0 hsnd0
      simp only [hfind, hsfa, hwf2, Bool.false_eq_true, if_false]
      intro y hy
      refine hrepl _ ?_ y hy
      unfold WFSig
      refine ⟨?_, ?_, ?_, ?_⟩
      · simp
        omega
      · intro h
        simp at h
      · intro h
        simp at h
      · intro h
        simp at h

theorem emitSignal_wf {st : EngineState} {bid : Nat} (pat : ℚ × ℚ × ℚ)
    (hwf : ∀ s ∈ st.dbSignals, WFSig s) :
    ∀ s ∈ (emitSignal st bid pat).dbSignals, WFSig s := by
  unfold emitSignal
  by_cases hp : st.pending.isSome
  · rw [if_pos hp]
    exact hwf
  · rw [if_neg hp]
    intro s hs
    rcases List.mem_append.mp hs with h | h
    · exact hwf s h
    · simp only [List.mem_singleton] at h
      subst h
      unfold WFSig
      refine ⟨by simp, fun h2 => rfl, by simp, fun h2 => rfl⟩

theorem processNewResult_wf {st : EngineState} {bid : Nat} {rid : String}
    {mult : ℚ} (recents : List RecRow)
    (hwf : ∀ s ∈ st.dbSignals, WFSig s) :
    ∀ s ∈ (processNewResult st bid rid mult recents).dbSignals, WFSig s := by
  unfold processNewResult
  by_cases hkey : (bid, rid, mult) ∈ st.processed
  · rw [if_pos hkey]
    exact hwf
  · rw [if_neg hkey]
    have hverify : ∀ (st2 : EngineState) (po : Option Nat),
        (∀ s ∈ st2.dbSignals, WFSig s) →
        ∀ s ∈ (match po with
          | some sid => verifySignal st2 sid bid rid mult
          | none => st2).dbSignals, WFSig s := by
      intro st2 po hwf2
      cases po with
      | none => exact hwf2
      | some sid => exact verifySignal_wf hwf2
    have hdetect : ∀ (st3 : EngineState), (∀ s ∈ st3.dbSignals, WFSig s) →
        ∀ s ∈ (if (dedupeByRoundId recents).length ≥ 3 then
            match detectPattern (dedupeByRoundId recents) with
            | some pat => emitSignal st3 bid pat
            | none => st3
          else st3).dbSignals, WFSig s := by
      intro st3 hwf3
      by_cases hlen : (dedupeByRoundId recents).length ≥ 3
      · rw [if_pos hlen]
        cases detectPattern (dedupeByRoundId recents) with
        | none => exact hwf3
        | some pat => exact emitSignal_wf pat hwf3
      · rw [if_neg hlen]
        exact hwf3
    by_cases htrim : (st.processed ++ [(bid, rid, mult)]).length > 1000
    · simp only [htrim, if_true]
      refine hdetect _ (hverify _ st.pending ?_)
      exact hwf
    · simp only [htrim, Bool.false_eq_true, if_false]
      refine hdetect _ (hverify _ st.pending ?_)
      exact hwf

theorem runEngine_wf (bid : Nat) (calls : List EngineCall) :
    ∀ (st : EngineState),
    (∀ s ∈ st.dbSignals, WFSig s) →
    ∀ s ∈ (runEngine st bid calls).dbSignals, WFSig s := by
  induction calls with
  | nil => exact fun st hwf => hwf
  | cons c rest ih =>
    intro st hwf
    exact ih _ (processNewResult_wf c.recents hwf)

/-- C6: two-attempt resolution.  For a pending signal, the next persisted
round's multiplier `m` resolves attempt 1 with `isWin = m > 1.50`: a win
closes the signal as `won` with `galeUsed = false` and exactly one attempt
row; a loss keeps it pending, and the following persisted round resolves
attempt 2, closing as `won` iff its multiplier exceeds `1.50` and `lost`
otherwise, with `galeUsed = true` and exactly two attempt rows; and no
signal ever accumulates more than two attempt rows — the store read-back
returns `first_attempt_result` as a string, so a recorded attempt (even
`0.00`) is never mistaken for an absent one. -/
theorem two_attempt_resolution (st : EngineState) (sid bid : Nat)
    (sig : Signal) (m1 m2 : ℚ) (rid1 rid2 : String)
    (hdb : st.dbSignals = [sig])
    (hpend : st.pending = some sid)
    (hbk : sig.bookmakerId = bid)
    (hid : sig.id = sid)
    (hstat : sig.status = SigStatus.pending)
    (hfa : sig.firstAttempt = none)
    (hgale : sig.galeUsed = false)
    (hatt : sig.attempts = []) :
    (m1 > 3/2 →
      verifySignal st sid bid rid1 m1 =
        { st with
            pending := none,
            dbSignals :=
              [{ sig with
                   status := SigStatus.won,
                   firstAttempt := some m1,
                   galeUsed := false,
                   attempts :=
                     [{ attempt_number := 1, result_multiplier := m1,
                        is_win := true, round_id := rid1 }] }] }) ∧
    (¬ m1 > 3/2 →
      verifySignal st sid bid rid1 m1 =
        { st with
            dbSignals :=
              [{ sig with
                   status := SigStatus.pending,
                   firstAttempt := some m1,
                   galeUsed := false,
                   attempts :=
                     [{ attempt_number := 1, result_multiplier := m1,
                        is_win := false, round_id := rid1 }] }] }) ∧
    (¬ m1 > 3/2 →
      verifySignal
        { st with
            dbSignals :=
              [{ sig with
                   status := SigStatus.pending,
                   firstAttempt := some m1,
                   attempts :=
                     [{ attempt_number := 1, result_multiplier := m1,
                        is_win := false, round_id := rid1 }] }] }
        sid bid rid2 m2 =
        { st with
            pending := none,
            dbSignals :=
              [{ sig with
                   status := if m2 > 3/2 then SigStatus.won else SigStatus.lost,
                   firstAttempt := some m1,
                   secondAttempt := some m2,
                   galeUsed := true,
                   attempts :=
                     [{ attempt_number := 1, result_multiplier := m1,
                        is_win := false, round_id := rid1 },
                      { attempt_number := 2, result_multiplier := m2,
                        is_win := decide (m2 > 3/2), round_id := rid2 }] }] }) ∧
    (∀ (calls : List EngineCall),
      ∀ s ∈ (runEngine initEngine bid calls).dbSignals,
        s.attempts.length ≤ 2) := by
  refine ⟨?_, ?_, ?_, ?_⟩
  · intro hw
    have hwt : decide (m1 > 3/2) = true := decide_eq_true hw
    simp [verifySignal, hdb, hbk, hid, hstat, hfa, hgale, hatt, hwt,
      replaceSignal]
  · intro hw
    have hwf2 : decide (m1 > 3/2) = false := decide_eq_false hw
    simp [verifySignal, hdb, hbk, hid, hstat, hfa, hgale, hatt, hwf2,
      replaceSignal]
  · intro hw
    by_cases hw2 : m2 > 3/2
    · have hwt2 : decide (m2 > 3/2) = true := decide_eq_true hw2
      simp [verifySignal, hbk, hid, hstat, hfa, hatt, hwt2, hw2,
        replaceSignal]
    · have hwg : decide (m2 > 3/2) = false := decide_eq_false hw2
      simp [verifySignal, hbk, hid, hstat, hfa, hatt, hwg, hw2,
        replaceSignal]
  · intro calls s hs
    exact (runEngine_wf bid calls initEngine (by simp [initEngine]) s hs).1

theorem two_attempt_resolution_witness :
    verifySignal freshSigState 0 1 "x" (9/5) =
      { freshSigState with
          pending := none,
          dbSignals :=
            [{ freshSig with
                 status := SigStatus.won,
                 firstAttempt := some (9/5),
                 galeUsed := false,
                 attempts :=
                   [{ attempt_number := 1, result_multiplier := 9/5,
                      is_win := true, round_id := "x" }] }] } :=
  (two_attempt_resolution freshSigState 0 1 freshSig (9/5) (9/5) "x" "y"
    rfl rfl rfl rfl rfl rfl rfl rfl).1 (by norm_num)

theorem rowCount_eq_zero_iff (db : List Row) (bid : Nat) (rid : String) :
    rowCount db bid rid = 0 ↔ findByRoundId db bid rid = none := by
  rw [rowCount, findByRoundId, List.length_eq_zero, List.filter_eq_nil_iff,
    List.find?_eq_none]

theorem rowCount_append (db l2 : List Row) (bid : Nat) (rid : String) :
    rowCount (db ++ l2) bid rid = rowCount db bid rid + rowCount l2 bid rid := by
  rw [rowCount, rowCount, rowCount, List.filter_append, List.length_append]

theorem validateCrashX_pos (m : ℚ) (fb : JNum) (hm : 0 < m) :
    ∃ q : ℚ, validateCrashX (JNum.num m) fb = some q := by
  unfold validateCrashX
  have h1 : JNum.jsOr (JNum.num m) (JNum.jsOr fb (JNum.num 0)) = JNum.num m := by
    simp [JNum.jsOr, JNum.truthy, hm.ne']
  have h2 : (JNum.num m).jle 0 = false := by
    simp [JNum.jle]
    linarith
  by_cases h3 : (JNum.num m).jgt MAX_MULTIPLIER_VALUE
  · simp [h1, h2, h3, JNum.isNanOrInf, jroundTo2]
  · simp [h1, h2, h3, JNum.isNanOrInf, jroundTo2]

set_option maxHeartbeats 1600000 in
theorem saveRoundData_seen (st : SaveState) (bid : Nat) (c : JNum) (now : Nat)
    (rd : RoundAgg) (rid : String)
    (hrd : st.roundData = some rd) (hrid : rd.roundId = some rid)
    (hkey : (bid, rid) ∈ st.savedRounds) :
    saveRoundData st bid c now = st := by
  rw [saveRoundData_eq st bid c now rd hrd]
  cases hv : validateCrashX c rd.maxMultiplier with
  | none => rfl
  | some q =>
    show persistRound st bid rd q now = st
    unfold persistRound
    simp only [hrid]
    rw [if_pos hkey, ← hrd]

set_option maxHeartbeats 1600000 in
theorem persistRound_fresh_insert (st : SaveState) (bid : Nat) (rd : RoundAgg)
    (q : ℚ) (now : Nat) (rid : String)
    (hrid : rd.roundId = some rid)
    (htemp : isTempId rid = false)
    (hkey : (bid, rid) ∉ st.savedRounds)
    (hdb : findByRoundId st.db bid rid = none)
    (hfits : amountsFit rd)
    (hqfit : |safeDecimalValue (JNum.num q) 2 MAX_MULTIPLIER_VALUE|
      ≤ DEC20_MAX) :
    ∃ (row : Row) (rd2 : RoundAgg),
      persistRound st bid rd q now =
        { savedRounds := (bid, rid) :: st.savedRounds,
          db := st.db ++ [row], roundData := some rd2 } ∧
      row.bookmaker_id = bid ∧ row.round_id = rid ∧
      row.max_multiplier
        = safeDecimalValue (JNum.num q) 2 MAX_MULTIPLIER_VALUE ∧
      row.timestamp = now ∧
      rd2.roundId = some rid := by
  obtain ⟨hb1, hb2, hb3, hb4⟩ := hfits
  unfold persistRound
  simp only [hrid, htemp, hdb, addRound, tryUpsert, rowFits, addKey, hkey,
    Bool.false_eq_true, if_false, if_true, ite_false, ite_true,
    not_false_eq_true, ne_eq, not_true_eq_false, decide_eq_true_eq]
  by_cases hbump : JNum.jgtJ (JNum.num q) rd.maxMultiplier
  · simp only [hbump, if_true, ite_true, hb1, hb2, hb3, hb4, hqfit,
      and_true, true_and, and_self, upsertRow, hdb, persistSuccess,
      ne_eq, eq_self_iff_true, not_true, not_true_eq_false, if_false,
      ite_false, addKey, hkey, not_false_eq_true]
    exact ⟨_, _, rfl, rfl, rfl, rfl, rfl, by simp [hrid]⟩
  · simp only [hbump, Bool.false_eq_true, if_false, ite_false, hb1, hb2, hb3,
      hb4, hqfit, and_true, true_and, and_self, upsertRow, hdb,
      persistSuccess, ne_eq, eq_self_iff_true, not_true, not_true_eq_false,
      if_true, ite_true, addKey, hkey, not_false_eq_true]
    exact ⟨_, _, rfl, rfl, rfl, rfl, rfl, by simp [hrid]⟩

theorem runSaves_seen (bid : Nat) (rest : List (JNum × Nat)) (st : SaveState)
    (rd : RoundAgg) (rid : String)
    (hrd : st.roundData = some rd) (hrid : rd.roundId = some rid)
    (hkey : (bid, rid) ∈ st.savedRounds) :
    runSaves st bid rest = st := by
  induction rest with
  | nil => rfl
  | cons c cs ih =>
    show runSaves (saveRoundData st bid c.1 c.2) bid cs = st
    rw [saveRoundData_seen st bid c.1 c.2 rd rid hrd hrid hkey]
    exact ih

/-- The positive branch of the validation block for a finite multiplier at
most the clamp bound: the value is accepted after two-decimal rounding. -/
theorem validateCrashX_val (m : ℚ) (fb : JNum) (hm : 0 < m)
    (hmax : m ≤ MAX_MULTIPLIER_VALUE) :
    validateCrashX (JNum.num m) fb
      = some ((jround (m * 100) : ℚ) / 100) := by
  have ht : (JNum.num m).truthy = true := by
    simp [JNum.truthy]
    exact ne_of_gt hm
  have h1 : (JNum.num m).jle 0 = false := by
    simp [JNum.jle]
    exact hm
  have h2 : (JNum.num m).jgt MAX_MULTIPLIER_VALUE = false := by
    simp [JNum.jgt]
    exact hmax
  unfold validateCrashX
  simp only [JNum.jsOr, ht, if_true, ite_true, h1, h2, Bool.false_eq_true,
    if_false, ite_false, JNum.isNanOrInf, jroundTo2, JNum.toQ]

theorem safeDecimalValue_fixed (m : ℚ) (hmax : m ≤ MAX_MULTIPLIER_VALUE)
    (hr : (jround (m * 100) : ℚ) / 100 = m) :
    safeDecimalValue (JNum.num m) 2 MAX_MULTIPLIER_VALUE = m := by
  simp only [safeDecimalValue]
  rw [if_neg (not_lt.mpr hmax)]
  norm_num
  exact hr

/-- A positive two-decimal value inside the `DECIMAL(20,2)` bound survives
`safeDecimalValue` unchanged and fits the column. -/
theorem round2_fits (m : ℚ) (hm : 0 < m)
    (hsafe : (jround (m * 100) : ℚ) / 100 ≤ DEC20_MAX) :
    safeDecimalValue (JNum.num ((jround (m * 100) : ℚ) / 100)) 2
        MAX_MULTIPLIER_VALUE = (jround (m * 100) : ℚ) / 100 ∧
    |safeDecimalValue (JNum.num ((jround (m * 100) : ℚ) / 100)) 2
        MAX_MULTIPLIER_VALUE| ≤ DEC20_MAX := by
  have hq0 : (0 : ℚ) ≤ (jround (m * 100) : ℚ) / 100 := by
    apply div_nonneg _ (by norm_num)
    have : (0 : ℤ) ≤ jround (m * 100) := by
      rw [jround]
      apply Int.floor_nonneg.mpr
      nlinarith
    exact_mod_cast this
  have hle : (jround (m * 100) : ℚ) / 100 ≤ MAX_MULTIPLIER_VALUE :=
    le_trans hsafe (by norm_num [DEC20_MAX, MAX_MULTIPLIER_VALUE])
  have heq := safeDecimalValue_fixed ((jround (m * 100) : ℚ) / 100) hle
    (round2_round2 m)
  refine ⟨heq, ?_⟩
  rw [heq, abs_of_nonneg hq0]
  exact hsafe

/-- C1: exactly-once persistence per natural key.  From a state whose store
holds no row for the server-issued key `(bid, rid)` and whose dedup set has
not seen it, a first finalize call with a positive crash multiplier inserts
exactly one row for the key, and every later finalize call of any argument
leaves the store with exactly that one row — the in-process `savedRounds`
check short-circuits each of them. -/
theorem dedup_exactly_once (st : SaveState) (bid : Nat) (rd : RoundAgg)
    (rid : String) (m0 : ℚ) (t0 : Nat) (rest : List (JNum × Nat))
    (hrd : st.roundData = some rd)
    (hrid : rd.roundId = some rid)
    (htemp : isTempId rid = false)
    (hm : 0 < m0)
    (hmax : m0 ≤ MAX_MULTIPLIER_VALUE)
    (hsafe : (jround (m0 * 100) : ℚ) / 100 ≤ DEC20_MAX)
    (hfits : amountsFit rd)
    (hkey : (bid, rid) ∉ st.savedRounds)
    (hdb : rowCount st.db bid rid = 0) :
    rowCount (runSaves st bid ((JNum.num m0, t0) :: rest)).db bid rid = 1 := by
  have hdbn : findByRoundId st.db bid rid = none :=
    (rowCount_eq_zero_iff _ _ _).mp hdb
  have hq := validateCrashX_val m0 rd.maxMultiplier hm hmax
  obtain ⟨row, rd2, hstep, hrbid, hrrid, _, _, hrd2⟩ :=
    persistRound_fresh_insert st bid rd ((jround (m0 * 100) : ℚ) / 100) t0
      rid hrid htemp hkey hdbn hfits (round2_fits m0 hm hsafe).2
  have h1 : saveRoundData st bid (JNum.num m0) t0 =
      { savedRounds := (bid, rid) :: st.savedRounds, db := st.db ++ [row],
        roundData := some rd2 } := by
    rw [saveRoundData_eq st bid _ t0 rd hrd, hq]
    exact hstep
  have h2 : runSaves st bid ((JNum.num m0, t0) :: rest)
      = runSaves (saveRoundData st bid (JNum.num m0) t0) bid rest := rfl
  rw [h2, h1, runSaves_seen bid rest _ rd2 rid rfl hrd2
    (List.mem_cons_self _ _)]
  rw [rowCount_append, hdb]
  simp [rowCount, hrbid, hrrid]

theorem findSimilarRound_nil (bid : Nat) (m : ℚ) (now : Nat) :
    findSimilarRound [] bid m now = none := rfl

set_option maxHeartbeats 1600000 in
theorem persistRound_fresh_insert_temp (st : SaveState) (bid : Nat)
    (rd : RoundAgg) (q : ℚ) (now : Nat) (rid : String)
    (hrid : rd.roundId = some rid)
    (htemp : isTempId rid = true)
    (hkey : (bid, rid) ∉ st.savedRounds)
    (hdb : findByRoundId st.db bid rid = none)
    (hsim : findSimilarRound st.db bid q now = none)
    (hsim2 : findSimilarRound st.db bid
      (safeDecimalValue (JNum.num q) 2 MAX_MULTIPLIER_VALUE) now = none)
    (hfits : amountsFit rd)
    (hqfit : |safeDecimalValue (JNum.num q) 2 MAX_MULTIPLIER_VALUE|
      ≤ DEC20_MAX) :
    ∃ (row : Row) (rd2 : RoundAgg),
      persistRound st bid rd q now =
        { savedRounds := (bid, rid) :: st.savedRounds,
          db := st.db ++ [row], roundData := some rd2 } ∧
      row.bookmaker_id = bid ∧ row.round_id = rid ∧
      row.max_multiplier
        = safeDecimalValue (JNum.num q) 2 MAX_MULTIPLIER_VALUE ∧
      row.timestamp = now ∧
      rd2.roundId = some rid := by
  obtain ⟨hb1, hb2, hb3, hb4⟩ := hfits
  unfold persistRound
  simp only [hrid, htemp, hdb, hsim, addRound, tryUpsert, rowFits,
    decide_eq_true_eq]
  rw [hsim2]
  by_cases hbump : JNum.jgtJ (JNum.num q) rd.maxMultiplier
  · simp only [hbump, if_true, ite_true, hb1, hb2, hb3, hb4, hqfit,
      and_true, true_and, and_self, upsertRow, hdb, persistSuccess,
      ne_eq, eq_self_iff_true, not_true, not_true_eq_false, if_false,
      ite_false, addKey, hkey, not_false_eq_true]
    exact ⟨_, _, rfl, rfl, rfl, rfl, rfl, by simp [hrid]⟩
  · simp only [hbump, Bool.false_eq_true, if_false, ite_false, hb1, hb2, hb3,
      hb4, hqfit, and_true, true_and, and_self, upsertRow, hdb,
      persistSuccess, ne_eq, eq_self_iff_true, not_true, not_true_eq_false,
      if_true, ite_true, addKey, hkey, not_false_eq_true]
    exact ⟨_, _, rfl, rfl, rfl, rfl, rfl, by simp [hrid]⟩

theorem latestRow_foldl_mem (l : List Row) (acc : Option Row) (r : Row)
    (h : l.foldl (fun acc r =>
        match acc with
        | none => some r
        | some b => if r.timestamp > b.timestamp then some r else some b) acc
        = some r) : acc = some r ∨ r ∈ l := by
  induction l generalizing acc with
  | nil => exact Or.inl h
  | cons x xs ih =>
    simp only [List.foldl_cons] at h
    rcases ih _ h with h3 | h3
    · cases acc with
      | none =>
        have h4 : some x = some r := h3
        simp only [Option.some.injEq] at h4
        exact Or.inr (h4 ▸ List.mem_cons_self x xs)
      | some b =>
        have h4 : (if x.timestamp > b.timestamp then some x else some b)
            = some r := h3
        by_cases hc : x.timestamp > b.timestamp
        · rw [if_pos hc] at h4
          simp only [Option.some.injEq] at h4
          exact Or.inr (h4 ▸ List.mem_cons_self x xs)
        · rw [if_neg hc] at h4
          exact Or.inl h4
    · exact Or.inr (List.mem_cons_of_mem x h3)

theorem latestRow_mem {l : List Row} {r : Row} (h : latestRow l = some r) :
    r ∈ l := by
  rcases latestRow_foldl_mem l none r h with h2 | h2
  · exact absurd h2 (by simp)
  · exact h2

theorem findSimilarRound_facts {db : List Row} {bid : Nat} {m : ℚ} {now : Nat}
    {r : Row} (h : findSimilarRound db bid m now = some r) :
    r ∈ db ∧ r.bookmaker_id = bid ∧ |r.max_multiplier - m| < 1/100 ∧
      now < r.timestamp + 300000 := by
  have hmem := latestRow_mem h
  rw [List.mem_filter] at hmem
  refine ⟨hmem.1, ?_⟩
  have hp := hmem.2
  simp only [Bool.and_eq_true, beq_iff_eq, decide_eq_true_eq] at hp
  exact ⟨hp.1.1, hp.1.2, hp.2⟩

theorem findSimilarRound_singleton_pos (r : Row) (bid : Nat) (m : ℚ)
    (now : Nat) (hb : r.bookmaker_id = bid)
    (hm : |r.max_multiplier - m| < 1/100) (ht : now < r.timestamp + 300000) :
    findSimilarRound [r] bid m now = some r := by
  unfold findSimilarRound
  have hm2 : |r.max_multiplier - m| < (100:ℚ)⁻¹ := by
    rw [← one_div]; exact hm
  have hfil : List.filter (fun r => r.bookmaker_id == bid &&
      decide (|r.max_multiplier - m| < 1/100) &&
      decide (now < r.timestamp + 300000)) [r] = [r] := by
    simp [List.filter, hb, hm, hm2, ht]
  rw [hfil]
  rfl

theorem validateCrashX_eq (m : ℚ) (fb : JNum) (hm : 0 < m)
    (hmax : m ≤ MAX_MULTIPLIER_VALUE)
    (hr : (jround (m * 100) : ℚ) / 100 = m) :
    validateCrashX (JNum.num m) fb = some m := by
  have ht : (JNum.num m).truthy = true := by
    simp [JNum.truthy]; exact ne_of_gt hm
  have h1 : (JNum.num m).jle 0 = false := by
    simp [JNum.jle]; exact hm
  have h2 : (JNum.num m).jgt MAX_MULTIPLIER_VALUE = false := by
    simp [JNum.jgt]; exact hmax
  unfold validateCrashX
  simp only [JNum.jsOr, ht, if_true, ite_true, h1, h2, Bool.false_eq_true,
    if_false, ite_false, JNum.isNanOrInf, jroundTo2, JNum.toQ, hr]

theorem findByRoundId_singleton_ne (r : Row) (bid : Nat) (rid : String)
    (hne : r.round_id ≠ rid) :
    findByRoundId [r] bid rid = none := by
  simp [findByRoundId, hne]

theorem updateRoundId_singleton (r : Row) (oldId newId : String) (bid : Nat)
    (hb : r.bookmaker_id = bid) (hr : r.round_id = oldId)
    (hne : r.round_id ≠ newId) :
    (updateRoundId [r] oldId newId bid).1 = [{ r with round_id := newId }] := by
  unfold updateRoundId
  rw [findByRoundId_singleton_ne r bid newId hne]
  simp [hb, hr]

set_option maxHeartbeats 1600000 in
theorem persistRound_merge (st : SaveState) (bid : Nat) (rd : RoundAgg)
    (q : ℚ) (now : Nat) (rid : String) (s : Row)
    (hrid : rd.roundId = some rid)
    (htemp : isTempId rid = true)
    (hkey : (bid, rid) ∉ st.savedRounds)
    (hdb : findByRoundId st.db bid rid = none)
    (hsim : findSimilarRound st.db bid q now = some s)
    (hstemp : isTempId s.round_id = true)
    (hfresh : absDiff now s.timestamp < 30000) :
    persistRound st bid rd q now =
      { savedRounds := addKey (bid, rid) st.savedRounds,
        db := (updateRoundId st.db s.round_id rid bid).1,
        roundData := some rd } := by
  unfold persistRound
  simp only [hrid, htemp, hdb, hsim, hstemp, if_pos hfresh, if_true, ite_true]
  rw [if_neg hkey]

set_option maxHeartbeats 1600000 in
theorem persistRound_insert_oldSimilar (st : SaveState) (bid : Nat)
    (rd : RoundAgg) (q : ℚ) (now : Nat) (rid : String) (s : Row)
    (hrid : rd.roundId = some rid)
    (htemp : isTempId rid = true)
    (hkey : (bid, rid) ∉ st.savedRounds)
    (hdb : findByRoundId st.db bid rid = none)
    (hq : safeDecimalValue (JNum.num q) 2 MAX_MULTIPLIER_VALUE = q)
    (hsim : findSimilarRound st.db bid q now = some s)
    (hstemp : isTempId s.round_id = true)
    (hold : ¬ absDiff now s.timestamp < 30000)
    (hfits : amountsFit rd)
    (hqfit : |q| ≤ DEC20_MAX) :
    ∃ (row : Row) (rd2 : RoundAgg),
      persistRound st bid rd q now =
        { savedRounds := (bid, rid) :: st.savedRounds,
          db := st.db ++ [row], roundData := some rd2 } ∧
      row.bookmaker_id = bid ∧ row.round_id = rid ∧
      row.max_multiplier
        = safeDecimalValue (JNum.num q) 2 MAX_MULTIPLIER_VALUE ∧
      row.timestamp = now ∧
      rd2.roundId = some rid := by
  obtain ⟨hb1, hb2, hb3, hb4⟩ := hfits
  unfold persistRound
  simp only [hrid, htemp, hdb, hq, hsim, hstemp, if_neg hold, addRound,
    tryUpsert, rowFits, decide_eq_true_eq]
  by_cases hbump : JNum.jgtJ (JNum.num q) rd.maxMultiplier
  · simp only [hbump, if_true, ite_true, hb1, hb2, hb3, hb4, hqfit,
      and_true, true_and, and_self, upsertRow, hdb, persistSuccess,
      ne_eq, eq_self_iff_true, not_true, not_true_eq_false, if_false,
      ite_false, addKey, hkey, not_false_eq_true]
    exact ⟨_, _, rfl, rfl, rfl, rfl, rfl, by simp [hrid]⟩
  · simp only [hbump, Bool.false_eq_true, if_false, ite_false, hb1, hb2, hb3,
      hb4, hqfit, and_true, true_and, and_self, upsertRow, hdb,
      persistSuccess, ne_eq, eq_self_iff_true, not_true, not_true_eq_false,
      if_true, ite_true, addKey, hkey, not_false_eq_true]
    exact ⟨_, _, rfl, rfl, rfl, rfl, rfl, by simp [hrid]⟩

set_option maxHeartbeats 1600000 in
theorem persistRound_insert_realSimilar (st : SaveState) (bid : Nat)
    (rd : RoundAgg) (q : ℚ) (now : Nat) (rid : String) (s : Row)
    (hrid : rd.roundId = some rid)
    (htemp : isTempId rid = true)
    (hkey : (bid, rid) ∉ st.savedRounds)
    (hdb : findByRoundId st.db bid rid = none)
    (hq : safeDecimalValue (JNum.num q) 2 MAX_MULTIPLIER_VALUE = q)
    (hsim : findSimilarRound st.db bid q now = some s)
    (hstemp : isTempId s.round_id = false)
    (hfits : amountsFit rd)
    (hqfit : |q| ≤ DEC20_MAX) :
    ∃ (row : Row) (rd2 : RoundAgg),
      persistRound st bid rd q now =
        { savedRounds := (bid, rid) :: st.savedRounds,
          db := st.db ++ [row], roundData := some rd2 } ∧
      row.bookmaker_id = bid ∧ row.round_id = rid ∧
      row.max_multiplier
        = safeDecimalValue (JNum.num q) 2 MAX_MULTIPLIER_VALUE ∧
      row.timestamp = now ∧
      rd2.roundId = some rid := by
  obtain ⟨hb1, hb2, hb3, hb4⟩ := hfits
  unfold persistRound
  simp only [hrid, htemp, hdb, hq, hsim, hstemp, addRound, tryUpsert,
    rowFits, decide_eq_true_eq]
  by_cases hbump : JNum.jgtJ (JNum.num q) rd.maxMultiplier
  · simp only [hbump, if_true, ite_true, hb1, hb2, hb3, hb4, hqfit,
      and_true, true_and, and_self, upsertRow, hdb, persistSuccess,
      ne_eq, eq_self_iff_true, not_true, not_true_eq_false, if_false,
      ite_false, addKey, hkey, not_false_eq_true, Bool.false_eq_true]
    exact ⟨_, _, rfl, rfl, rfl, rfl, rfl, by simp [hrid]⟩
  · simp only [hbump, Bool.false_eq_true, if_false, ite_false, hb1, hb2, hb3,
      hb4, hqfit, and_true, true_and, and_self, upsertRow, hdb,
      persistSuccess, ne_eq, eq_self_iff_true, not_true, not_true_eq_false,
      if_true, ite_true, addKey, hkey, not_false_eq_true]
    exact ⟨_, _, rfl, rfl, rfl, rfl, rfl, by simp [hrid]⟩

/-- C2: the similarity merge collapses rounds only for synthesized ids.
Starting from an empty store, two finalize calls whose aggregates carry
storable monetary totals and distinct round ids, with already-two-decimal
positive multipliers inside the `DECIMAL(20,2)` bound: (i) with both ids
synthesized, multipliers within `0.01` and timestamps under 30 seconds apart
(and inside the 5-minute lookup window), the second call rewrites the first
row's id instead of inserting — one row remains, holding the newer id;
(ii) with both ids synthesized but the calls at least 30 seconds apart, two
rows persist; (iii) with both ids server-issued, two rows persist even when
the multipliers are equal. -/
theorem temp_merge_semantics
    (bid t1 t2 : Nat) (m1 m2 : ℚ) (r1 r2 : String) (rd1 rd2 : RoundAgg)
    (hr1 : rd1.roundId = some r1) (hr2 : rd2.roundId = some r2)
    (hne : r1 ≠ r2)
    (hfits1 : amountsFit rd1) (hfits2 : amountsFit rd2)
    (hm1 : 0 < m1) (hc1 : m1 ≤ DEC20_MAX)
    (hq1 : (jround (m1 * 100) : ℚ) / 100 = m1)
    (hm2 : 0 < m2) (hc2 : m2 ≤ DEC20_MAX)
    (hq2 : (jround (m2 * 100) : ℚ) / 100 = m2) :
    (isTempId r1 = true → isTempId r2 = true →
      |m1 - m2| < 1/100 → t2 < t1 + 300000 → absDiff t2 t1 < 30000 →
      (run2 ⟨[], [], some rd1⟩ bid (JNum.num m1) t1 rd2
        (JNum.num m2) t2).db.map (fun r => r.round_id) = [r2]) ∧
    (isTempId r1 = true → isTempId r2 = true → ¬ absDiff t2 t1 < 30000 →
      (run2 ⟨[], [], some rd1⟩ bid (JNum.num m1) t1 rd2
        (JNum.num m2) t2).db.map (fun r => r.round_id) = [r1, r2]) ∧
    (isTempId r1 = false → isTempId r2 = false → m1 = m2 →
      (run2 ⟨[], [], some rd1⟩ bid (JNum.num m1) t1 rd2
        (JNum.num m2) t2).db.map (fun r => r.round_id) = [r1, r2]) := by
  have hd20 : DEC20_MAX ≤ MAX_MULTIPLIER_VALUE := by
    norm_num [DEC20_MAX, MAX_MULTIPLIER_VALUE]
  have hv1 : validateCrashX (JNum.num m1) rd1.maxMultiplier = some m1 :=
    validateCrashX_eq m1 _ hm1 (le_trans hc1 hd20) hq1
  have hv2 : validateCrashX (JNum.num m2) rd2.maxMultiplier = some m2 :=
    validateCrashX_eq m2 _ hm2 (le_trans hc2 hd20) hq2
  have hsf1 : safeDecimalValue (JNum.num m1) 2 MAX_MULTIPLIER_VALUE = m1 :=
    safeDecimalValue_fixed m1 (le_trans hc1 hd20) hq1
  have hsf2 : safeDecimalValue (JNum.num m2) 2 MAX_MULTIPLIER_VALUE = m2 :=
    safeDecimalValue_fixed m2 (le_trans hc2 hd20) hq2
  have ha1 : |m1| ≤ DEC20_MAX := by
    rw [abs_of_pos hm1]
    exact hc1
  have ha2 : |m2| ≤ DEC20_MAX := by
    rw [abs_of_pos hm2]
    exact hc2
  have haf1 : |safeDecimalValue (JNum.num m1) 2 MAX_MULTIPLIER_VALUE|
      ≤ DEC20_MAX := by
    rw [hsf1]
    exact ha1
  have haf2 : |safeDecimalValue (JNum.num m2) 2 MAX_MULTIPLIER_VALUE|
      ≤ DEC20_MAX := by
    rw [hsf2]
    exact ha2
  have hkey2 : (bid, r2) ∉ ([(bid, r1)] : List (Nat × String)) :=
    fun hmem => hne (congrArg Prod.snd (List.mem_singleton.mp hmem)).symm
  refine ⟨?_, ?_, ?_⟩
  · -- merge scenario
    intro ht1 ht2 hdiff h5min h30
    obtain ⟨row1, rdA, hst1, hb1, hrid1, hmax1, hts1, -⟩ :=
      persistRound_fresh_insert_temp ⟨[], [], some rd1⟩ bid rd1 m1 t1 r1
        hr1 ht1 (by simp) rfl rfl rfl hfits1 haf1
    have hst1' : saveRoundData ⟨[], [], some rd1⟩ bid (JNum.num m1) t1
        = ⟨[(bid, r1)], [row1], some rdA⟩ := by
      rw [saveRoundData_some _ bid _ t1 rd1 m1 rfl hv1, hst1]
      rfl
    have hrun : run2 ⟨[], [], some rd1⟩ bid (JNum.num m1) t1 rd2
        (JNum.num m2) t2
        = saveRoundData ⟨[(bid, r1)], [row1], some rd2⟩ bid
            (JNum.num m2) t2 := by
      unfold run2
      rw [hst1']
    rw [hrun, saveRoundData_some _ bid _ t2 rd2 m2 rfl hv2]
    have hdb2 : findByRoundId ([row1] : List Row) bid r2 = none :=
      findByRoundId_singleton_ne row1 bid r2 (by rw [hrid1]; exact hne)
    have hsim : findSimilarRound ([row1] : List Row) bid m2 t2 = some row1 :=
      findSimilarRound_singleton_pos row1 bid m2 t2 hb1
        (by rw [hmax1, hsf1]; exact hdiff) (by rw [hts1]; exact h5min)
    rw [persistRound_merge ⟨[(bid, r1)], [row1], some rd2⟩ bid rd2 m2 t2 r2
      row1 hr2 ht2 hkey2 hdb2 hsim (by rw [hrid1]; exact ht1)
      (by rw [hts1]; exact h30)]
    rw [show (⟨[(bid, r1)], [row1], some rd2⟩ : SaveState).db = [row1] from rfl]
    rw [updateRoundId_singleton row1 row1.round_id r2 bid hb1 rfl
      (by rw [hrid1]; exact hne)]
    simp
  · -- :>= 30 s apart: two rows
    intro ht1 ht2 hge
    obtain ⟨row1, rdA, hst1, hb1, hrid1, hmax1, hts1, -⟩ :=
      persistRound_fresh_insert_temp ⟨[], [], some rd1⟩ bid rd1 m1 t1 r1
        hr1 ht1 (by simp) rfl rfl rfl hfits1 haf1
    have hst1' : saveRoundData ⟨[], [], some rd1⟩ bid (JNum.num m1) t1
        = ⟨[(bid, r1)], [row1], some rdA⟩ := by
      rw [saveRoundData_some _ bid _ t1 rd1 m1 rfl hv1, hst1]
      rfl
    have hrun : run2 ⟨[], [], some rd1⟩ bid (JNum.num m1) t1 rd2
        (JNum.num m2) t2
        = saveRoundData ⟨[(bid, r1)], [row1], some rd2⟩ bid
            (JNum.num m2) t2 := by
      unfold run2
      rw [hst1']
    rw [hrun, saveRoundData_some _ bid _ t2 rd2 m2 rfl hv2]
    have hdb2 : findByRoundId ([row1] : List Row) bid r2 = none :=
      findByRoundId_singleton_ne row1 bid r2 (by rw [hrid1]; exact hne)
    cases hs : findSimilarRound ([row1] : List Row) bid m2 t2 with
    | none =>
      obtain ⟨row2, rdB, hst2, hb2, hrid2, hmax2, hts2, -⟩ :=
        persistRound_fresh_insert_temp ⟨[(bid, r1)], [row1], some rd2⟩ bid
          rd2 m2 t2 r2 hr2 ht2 hkey2 hdb2 hs (by rw [hsf2]; exact hs)
          hfits2 haf2
      rw [hst2]
      simp [hrid1, hrid2]
    | some s =>
      have hsrow : s = row1 := by
        simpa using (findSimilarRound_facts hs).1
      rw [hsrow] at hs
      obtain ⟨row2, rdB, hst2, hb2, hrid2, hmax2, hts2, -⟩ :=
        persistRound_insert_oldSimilar ⟨[(bid, r1)], [row1], some rd2⟩ bid
          rd2 m2 t2 r2 row1 hr2 ht2 hkey2 hdb2 hsf2 hs
          (by rw [hrid1]; exact ht1) (by rw [hts1]; exact hge) hfits2 ha2
      rw [hst2]
      simp [hrid1, hrid2]
  · -- distinct real ids: two rows
    intro ht1 ht2 _
    obtain ⟨row1, rdA, hst1, hb1, hrid1, hmax1, hts1, -⟩ :=
      persistRound_fresh_insert ⟨[], [], some rd1⟩ bid rd1 m1 t1 r1
        hr1 ht1 (by simp) rfl hfits1 haf1
    have hst1' : saveRoundData ⟨[], [], some rd1⟩ bid (JNum.num m1) t1
        = ⟨[(bid, r1)], [row1], some rdA⟩ := by
      rw [saveRoundData_some _ bid _ t1 rd1 m1 rfl hv1, hst1]
      rfl
    have hrun : run2 ⟨[], [], some rd1⟩ bid (JNum.num m1) t1 rd2
        (JNum.num m2) t2
        = saveRoundData ⟨[(bid, r1)], [row1], some rd2⟩ bid
            (JNum.num m2) t2 := by
      unfold run2
      rw [hst1']
    rw [hrun, saveRoundData_some _ bid _ t2 rd2 m2 rfl hv2]
    have hdb2 : findByRoundId ([row1] : List Row) bid r2 = none :=
      findByRoundId_singleton_ne row1 bid r2 (by rw [hrid1]; exact hne)
    obtain ⟨row2, rdB, hst2, hb2, hrid2, hmax2, hts2, -⟩ :=
      persistRound_fresh_insert ⟨[(bid, r1)], [row1], some rd2⟩ bid
        rd2 m2 t2 r2 hr2 ht2 hkey2 hdb2 hfits2 haf2
    rw [hst2]
    simp [hrid1, hrid2]

/-- An aggregate whose monetary totals are zero trivially fits the
`DECIMAL` columns. -/
theorem zeroAmounts_fit (rd : RoundAgg) (hb : rd.totalBetAmount = JNum.num 0)
    (hc : rd.totalCashout = JNum.num 0) : amountsFit rd := by
  unfold amountsFit
  norm_num [hb, hc, JNum.jsOr, JNum.truthy, JNum.jsub, JNum.jgt,
    safeDecimalValue, jround, DEC15_MAX, DEC5_MAX, MAX_MULTIPLIER_VALUE]

theorem dedup_exactly_once_witness :
    rowCount (runSaves testState 1
      ((JNum.num 2, 100) :: [(JNum.num 3, 200), (JNum.nan, 300)])).db
      1 "srv1001" = 1 :=
  dedup_exactly_once testState 1 testAgg "srv1001" 2 100
    [(JNum.num 3, 200), (JNum.nan, 300)] rfl rfl (by decide) (by norm_num)
    (by norm_num [MAX_MULTIPLIER_VALUE]) (by norm_num [jround, DEC20_MAX])
    (zeroAmounts_fit testAgg rfl rfl) (by simp [testState]) rfl

theorem temp_merge_semantics_witness :
    (run2 ⟨[], [], some wAgg1⟩ 1 (JNum.num 2) 1000 wAgg2
      (JNum.num 2) 2000).db.map (fun r => r.round_id) = ["temp_1_2000"] :=
  (temp_merge_semantics 1 1000 2000 2 2 "temp_1_1000" "temp_1_2000" wAgg1 wAgg2
    rfl rfl (by decide)
    (zeroAmounts_fit wAgg1 rfl rfl) (zeroAmounts_fit wAgg2 rfl rfl)
    (by norm_num) (by norm_num [DEC20_MAX])
    (by norm_num [jround]) (by norm_num) (by norm_num [DEC20_MAX])
    (by norm_num [jround])).1 (by decide) (by decide) (by norm_num)
    (by norm_num) (by norm_num [absDiff])
